import Mathlib

/-!
# Ploopy trackball (`keyboards/ploopyco/trackball/trackball.c`)

A shallow embedding of the keyboard-level code of the Ploopy trackball and proofs about
its drag-scroll converter and its DPI configuration.

Conventions of the embedding:

* The C globals of the file and the parts of the framework the file talks to (persistent
  storage, the sensor CPI, the pointing-device report, what has been sent to the host) are
  the fields of one record `State`; every C function is a function on `State`.
* `int` is the 16-bit `int` of the AVR target. An `int` value is a mathematical integer and
  every `int` operation is reduced with `wrap_int`. Fields of the mouse report that the code
  writes with `+=` are reduced with `wrap_int8`.
* Weak user hooks and the optical-encoder decoder are parameters (`Hooks`); macros that the
  file tests but does not define are parameters (`Build`); what the hardware returns during
  one call (`timer_read`, `adc_read`) is a parameter (`Tick`).
* Debug printing (`xprintf`, `dprintf`) has no effect on the state and is left out; the
  `void` user hooks (`matrix_init_user`, `eeconfig_init_user`) are taken to leave the state
  of this file alone.
-/

namespace Ploopy

/-! ## Machine integers -/

/-- Reduction of an integer to the 16-bit two's-complement `int` of the target. -/
def wrap_int (n : Int) : Int := (n + 32768) % 65536 - 32768

/-- Reduction of an integer to a signed 8-bit field (`int8_t`). -/
def wrap_int8 (n : Int) : Int := (n + 128) % 256 - 128

/-- Smallest value of `int`. -/
def INT_MIN : Int := -32768

/-- Largest value of `int`. -/
def INT_MAX : Int := 32767

/-- The value is representable as an `int`. -/
def fits_int (n : Int) : Prop := INT_MIN ≤ n ∧ n ≤ INT_MAX

instance (n : Int) : Decidable (fits_int n) := by unfold fits_int; infer_instance

/-- The value is representable as an `int8_t`. -/
def fits_int8 (n : Int) : Prop := -128 ≤ n ∧ n ≤ 127

instance (n : Int) : Decidable (fits_int8 n) := by unfold fits_int8; infer_instance

/-- C `a + b` on `int`. -/
def int_add (a b : Int) : Int := wrap_int (a + b)

/-- C `a - b` on `int`. -/
def int_sub (a b : Int) : Int := wrap_int (a - b)

/-- C `a * b` on `int`. -/
def int_mul (a b : Int) : Int := wrap_int (a * b)

/-- C `a / b` on `int`: the quotient truncated toward zero. -/
def int_div (a b : Int) : Int := wrap_int (a.tdiv b)

/-! ## Constants of the file -/

def PLOOPY_DRAGSCROLL_MOMENTARY : Bool := true
def PLOOPY_DRAGSCROLL_INVERT : Bool := true
def PLOOPY_DISABLE_SCROLLWHEEL : Bool := true

def OPT_DEBOUNCE : Nat := 5
def SCROLL_BUTT_DEBOUNCE : Nat := 100
def OPT_THRES : Nat := 150
def OPT_SCALE : Nat := 1
def PLOOPY_DPI_OPTIONS : List Nat := [1200, 1600, 2400]
def PLOOPY_DPI_DEFAULT : Nat := 1
def PLOOPY_DRAGSCROLL_DPI : Nat := 100

/-- The macro `PLOOPY_DRAGSCROLL_MULTIPLIER` is `0.75`; the product of a 16-bit value with it is exact
in floating point and its conversion to `uint16_t` truncates, so `v * 0.75` is `v * 3 / 4`. -/
def PLOOPY_DRAGSCROLL_MULTIPLIER (v : Nat) : Nat := v * 3 / 4

def PLOOPY_DRAGSCROLL_DENOMINATOR_Y : Int := 100
def PLOOPY_DRAGSCROLL_DENOMINATOR_X : Int := 200
def PLOOPY_DRAGSCROLL_RUBBERBAND_MULT : Int := 5

def dpi_array : List Nat := PLOOPY_DPI_OPTIONS
def DPI_OPTION_SIZE : Nat := dpi_array.length

/-! ## Types of the framework -/

/-- Mouse report of the framework: buttons, displacement `x`, `y`, scroll `v`, `h`. -/
structure report_mouse_t where
  buttons : Nat
  x : Int
  y : Int
  v : Int
  h : Int
deriving DecidableEq, Repr

structure keypos_t where
  col : Nat
  row : Nat
deriving DecidableEq, Repr

structure keyevent_t where
  key : keypos_t
  pressed : Bool
deriving DecidableEq, Repr

structure keyrecord_t where
  event : keyevent_t
deriving DecidableEq, Repr

/-- Modelled from the spec: `keyboard_config_t` is declared in `trackball.h`, which is
missing. The configuration is its serialized form `raw` (32 bits) and the 8-bit
`dpi_config` overlaid on the low byte of `raw`. -/
structure keyboard_config_t where
  raw : Nat
deriving DecidableEq, Repr

/-- Read of the member `dpi_config`. -/
def keyboard_config_t.dpi_config (c : keyboard_config_t) : Nat := c.raw % 256

/-- Write of the member `dpi_config` (an 8-bit store). -/
def keyboard_config_t.set_dpi_config (c : keyboard_config_t) (v : Nat) : keyboard_config_t :=
  ⟨c.raw - c.raw % 256 + v % 256⟩

/-- Macros that the file tests but does not define, and the keycodes it compares with. -/
structure Build where
  MOUSEKEY_ENABLE : Bool
  IGNORE_SCROLL_CLICK : Bool
  PLOOPY_DRAGSCROLL_FIXED : Bool
  DPI_CONFIG : Nat
  DRAG_SCROLL : Nat
  KC_WH_U : Nat
  KC_WH_D : Nat

/-- Weak user hooks and the decoder of the optical encoder. -/
structure Hooks where
  encoder_update_user : Nat → Bool → Bool
  process_record_user : Nat → keyrecord_t → Bool
  pointing_device_task_user : report_mouse_t → report_mouse_t
  opt_encoder_handler : Nat → Nat → Int

/-- What the hardware returns during one call: the 16-bit timer and the two ADC channels. -/
structure Tick where
  now : Nat
  p1 : Nat
  p2 : Nat

/-- The globals of the file and the state of the framework the file acts on. -/
structure State where
  _dragscroll_accumulator_x : Int
  _dragscroll_accumulator_y : Int
  keyboard_config : keyboard_config_t
  is_scroll_clicked : Bool
  lastScroll : Nat
  lastMidClick : Nat
  is_drag_scroll : Bool
  /-- the report held by the pointing-device driver (`pointing_device_get_report`) -/
  mouse_report : report_mouse_t
  /-- reports sent by `pointing_device_send`, newest first -/
  sent : List report_mouse_t
  /-- keycodes tapped by `tap_code`, newest first -/
  tapped : List Nat
  /-- the keyboard configuration word in persistent storage -/
  eeprom_kb : Nat
  /-- values written by `eeconfig_update_kb`, newest first -/
  eeprom_writes : List Nat
  /-- values given to `pointing_device_set_cpi`, newest first; `none` is a value read outside
  `dpi_array` -/
  cpi_calls : List (Option Nat)
deriving DecidableEq, Repr

/-! ## Primitives of the framework -/

/-- Modelled from the spec: `timer_elapsed` belongs to the framework, which is missing. It is
the 16-bit time elapsed since `last` when the timer reads `now`. -/
def timer_elapsed (now last : Nat) : Nat := (now + 65536 - last % 65536) % 65536

/-- Effect of `eeconfig_update_kb(val)`: the word is stored and the write is recorded. -/
def eeconfig_update_kb (val : Nat) (s : State) : State :=
  { s with eeprom_kb := val, eeprom_writes := val :: s.eeprom_writes }

/-- Result of `eeconfig_read_kb()`. -/
def eeconfig_read_kb (s : State) : Nat := s.eeprom_kb

/-- Effect of `pointing_device_set_cpi(cpi)`: the value given to the sensor is recorded. -/
def pointing_device_set_cpi (cpi : Option Nat) (s : State) : State :=
  { s with cpi_calls := cpi :: s.cpi_calls }

/-- Result of `pointing_device_get_report()`. -/
def pointing_device_get_report (s : State) : report_mouse_t := s.mouse_report

/-- Effect of `pointing_device_set_report(r)`. -/
def pointing_device_set_report (r : report_mouse_t) (s : State) : State :=
  { s with mouse_report := r }

/-- Effect of `pointing_device_send()`: the report held by the driver goes to the host. -/
def pointing_device_send (s : State) : State :=
  { s with sent := s.mouse_report :: s.sent }

/-- Effect of `tap_code(kc)`. -/
def tap_code (kc : Nat) (s : State) : State :=
  { s with tapped := kc :: s.tapped }

/-! ## The functions of `trackball.c` -/

/-- Lines 82-95. -/
def encoder_update_kb (b : Build) (hk : Hooks) (index : Nat) (clockwise : Bool) (s : State) :
    State × Bool :=
  if !hk.encoder_update_user index clockwise then (s, false)
  else if b.MOUSEKEY_ENABLE then
    (tap_code (if clockwise then b.KC_WH_U else b.KC_WH_D) s, true)
  else
    let mouse_report := pointing_device_get_report s
    let mouse_report := { mouse_report with v := if clockwise then 1 else -1 }
    let s := pointing_device_set_report mouse_report s
    let s := pointing_device_send s
    (s, true)

/-- Lines 97-131. -/
def process_wheel (b : Build) (hk : Hooks) (t : Tick) (s : State) : State :=
  if timer_elapsed t.now s.lastMidClick < SCROLL_BUTT_DEBOUNCE then s
  else if timer_elapsed t.now s.lastScroll < OPT_DEBOUNCE then s
  else if s.is_scroll_clicked && !b.IGNORE_SCROLL_CLICK then s
  else if PLOOPY_DISABLE_SCROLLWHEEL then s
  else
    let s := { s with lastScroll := t.now }
    let dir := hk.opt_encoder_handler t.p1 t.p2
    if dir = 0 then s
    else (encoder_update_kb b hk 0 (decide (dir > 0)) s).1

/-- Lines 138-143: the two comparisons that remove one direction of the report. The second
comparison reads the `y` left by the first. -/
def rubberband (mouse_report : report_mouse_t) : report_mouse_t :=
  let mouse_report :=
    if mouse_report.x > int_mul mouse_report.y PLOOPY_DRAGSCROLL_RUBBERBAND_MULT then
      { mouse_report with y := 0 }
    else mouse_report
  let mouse_report :=
    if mouse_report.y > int_mul mouse_report.x PLOOPY_DRAGSCROLL_RUBBERBAND_MULT then
      { mouse_report with x := 0 }
    else mouse_report
  mouse_report

/-- Lines 136-171: the body of `if (is_drag_scroll)`. -/
def drag_scroll (s : State) (mouse_report : report_mouse_t) : State × report_mouse_t :=
  let mouse_report := rubberband mouse_report
  let s := { s with _dragscroll_accumulator_x := int_add s._dragscroll_accumulator_x mouse_report.x }
  let s := { s with _dragscroll_accumulator_y := int_sub s._dragscroll_accumulator_y mouse_report.y }
  let div_x := int_div s._dragscroll_accumulator_x PLOOPY_DRAGSCROLL_DENOMINATOR_X
  let div_y := int_div s._dragscroll_accumulator_y PLOOPY_DRAGSCROLL_DENOMINATOR_Y
  let (s, mouse_report) :=
    if div_x ≠ 0 then
      ({ s with _dragscroll_accumulator_x :=
            int_sub s._dragscroll_accumulator_x (int_mul div_x PLOOPY_DRAGSCROLL_DENOMINATOR_X) },
       { mouse_report with h := wrap_int8 (mouse_report.h + div_x) })
    else (s, mouse_report)
  let (s, mouse_report) :=
    if div_y ≠ 0 then
      ({ s with _dragscroll_accumulator_y :=
            int_sub s._dragscroll_accumulator_y (int_mul div_y PLOOPY_DRAGSCROLL_DENOMINATOR_Y) },
       { mouse_report with v := wrap_int8 (mouse_report.v + div_y) })
    else (s, mouse_report)
  (s, { mouse_report with x := 0, y := 0 })

/-- Lines 133-171: `pointing_device_task_kb` up to its last line; the result is the new state
and the report that is handed on to `pointing_device_task_user`. -/
def pointing_device_task_kb_body (b : Build) (hk : Hooks) (t : Tick) (s : State)
    (mouse_report : report_mouse_t) : State × report_mouse_t :=
  let s := process_wheel b hk t s
  if s.is_drag_scroll then drag_scroll s mouse_report
  else (s, mouse_report)

/-- Lines 133-174. -/
def pointing_device_task_kb (b : Build) (hk : Hooks) (t : Tick) (s : State)
    (mouse_report : report_mouse_t) : State × report_mouse_t :=
  let (s, mouse_report) := pointing_device_task_kb_body b hk t s mouse_report
  (s, hk.pointing_device_task_user mouse_report)

/-- Lines 176-218; `now` is what `timer_read()` returns. -/
def process_record_kb (b : Build) (hk : Hooks) (now : Nat) (keycode : Nat)
    (record : keyrecord_t) (s : State) : State × Bool :=
  let s :=
    if record.event.key.col = 1 ∧ record.event.key.row = 0 then
      { s with lastMidClick := now, is_scroll_clicked := record.event.pressed }
    else s
  if !hk.process_record_user keycode record then (s, false)
  else
    let s :=
      if keycode = b.DPI_CONFIG ∧ record.event.pressed = true then
        let s := { s with keyboard_config :=
          s.keyboard_config.set_dpi_config ((s.keyboard_config.dpi_config + 1) % DPI_OPTION_SIZE) }
        let s := eeconfig_update_kb s.keyboard_config.raw s
        pointing_device_set_cpi (dpi_array[s.keyboard_config.dpi_config]?) s
      else s
    let s :=
      if keycode = b.DRAG_SCROLL then
        let s :=
          if PLOOPY_DRAGSCROLL_MOMENTARY || record.event.pressed then
            { s with is_drag_scroll := xor s.is_drag_scroll true }
          else s
        if b.PLOOPY_DRAGSCROLL_FIXED then
          pointing_device_set_cpi
            (if s.is_drag_scroll then some PLOOPY_DRAGSCROLL_DPI
             else dpi_array[s.keyboard_config.dpi_config]?) s
        else
          pointing_device_set_cpi
            (if s.is_drag_scroll then
               (dpi_array[s.keyboard_config.dpi_config]?).map PLOOPY_DRAGSCROLL_MULTIPLIER
             else dpi_array[s.keyboard_config.dpi_config]?) s
      else s
    (s, true)

/-- Lines 258-262. -/
def eeconfig_init_kb (s : State) : State :=
  let s := { s with keyboard_config := s.keyboard_config.set_dpi_config PLOOPY_DPI_DEFAULT }
  eeconfig_update_kb s.keyboard_config.raw s

/-- Lines 264-272. -/
def matrix_init_kb (s : State) : State :=
  let s := { s with keyboard_config := ⟨eeconfig_read_kb s⟩ }
  if s.keyboard_config.dpi_config > DPI_OPTION_SIZE then eeconfig_init_kb s
  else s

/-- Lines 252-256; `opt_encoder_init` belongs to the framework and acts on none of the
fields of `State`. -/
def pointing_device_init_kb (s : State) : State :=
  pointing_device_set_cpi (dpi_array[s.keyboard_config.dpi_config]?) s

/-- Lines 274-278. -/
def keyboard_post_init_kb (s : State) : State :=
  pointing_device_set_cpi (dpi_array[s.keyboard_config.dpi_config]?) s

/-- The globals as the file initialises them, over any state of the framework. -/
def init_globals (s : State) : State :=
  { s with
    _dragscroll_accumulator_x := 0
    _dragscroll_accumulator_y := 0
    is_scroll_clicked := false
    lastScroll := 0
    lastMidClick := 0
    is_drag_scroll := false }

/-! ## Quantities of one pass of the drag-scroll block -/

/-- Value of `_dragscroll_accumulator_x` after line 146. -/
def drag_acc_x (s : State) (r : report_mouse_t) : Int :=
  int_add s._dragscroll_accumulator_x (rubberband r).x

/-- Value of `_dragscroll_accumulator_y` after line 147. -/
def drag_acc_y (s : State) (r : report_mouse_t) : Int :=
  int_sub s._dragscroll_accumulator_y (rubberband r).y

/-- The local `div_x` of line 151. -/
def drag_div_x (s : State) (r : report_mouse_t) : Int :=
  int_div (drag_acc_x s r) PLOOPY_DRAGSCROLL_DENOMINATOR_X

/-- The local `div_y` of line 152. -/
def drag_div_y (s : State) (r : report_mouse_t) : Int :=
  int_div (drag_acc_y s r) PLOOPY_DRAGSCROLL_DENOMINATOR_Y

/-- Both remainders are smaller in size than their denominators. -/
def acc_inv (s : State) : Prop :=
  |s._dragscroll_accumulator_x| < PLOOPY_DRAGSCROLL_DENOMINATOR_X ∧
  |s._dragscroll_accumulator_y| < PLOOPY_DRAGSCROLL_DENOMINATOR_Y

instance (s : State) : Decidable (acc_inv s) := by unfold acc_inv; infer_instance

/-- Every `int` result computed by lines 138-165 on state `s` and report `r`, before
reduction, is representable: the two products of the comparisons, the two additions to the
accumulators, and the product and the difference of each reset. -/
def drag_scroll_no_overflow (s : State) (r : report_mouse_t) : Prop :=
  fits_int (r.y * PLOOPY_DRAGSCROLL_RUBBERBAND_MULT) ∧
  fits_int (r.x * PLOOPY_DRAGSCROLL_RUBBERBAND_MULT) ∧
  fits_int (s._dragscroll_accumulator_x + (rubberband r).x) ∧
  fits_int (s._dragscroll_accumulator_y - (rubberband r).y) ∧
  fits_int (drag_div_x s r * PLOOPY_DRAGSCROLL_DENOMINATOR_X) ∧
  fits_int (drag_acc_x s r - drag_div_x s r * PLOOPY_DRAGSCROLL_DENOMINATOR_X) ∧
  fits_int (drag_div_y s r * PLOOPY_DRAGSCROLL_DENOMINATOR_Y) ∧
  fits_int (drag_acc_y s r - drag_div_y s r * PLOOPY_DRAGSCROLL_DENOMINATOR_Y)

/-- States reachable from any state whose accumulators are `(0, 0)` by the entry points of
the file: pointer reports, key events and the load of the configuration. -/
inductive Reachable (b : Build) (hk : Hooks) : State → Prop
  | init (s : State) : s._dragscroll_accumulator_x = 0 → s._dragscroll_accumulator_y = 0 →
      Reachable b hk s
  | task (s : State) (t : Tick) (r : report_mouse_t) : Reachable b hk s →
      Reachable b hk (pointing_device_task_kb b hk t s r).1
  | record (s : State) (now keycode : Nat) (record : keyrecord_t) : Reachable b hk s →
      Reachable b hk (process_record_kb b hk now keycode record s).1
  | matrix_init (s : State) : Reachable b hk s → Reachable b hk (matrix_init_kb s)

/-- A sequence of calls of `pointing_device_task_kb`: the final state and the reports handed
on, in order. -/
def run_reports (b : Build) (hk : Hooks) : State → List (Tick × report_mouse_t) →
    State × List report_mouse_t
  | s, [] => (s, [])
  | s, (t, r) :: l =>
    let out := pointing_device_task_kb_body b hk t s r
    let rest := run_reports b hk out.1 l
    (rest.1, out.2 :: rest.2)

/-- Sum of the `div_x` of every call of a sequence. -/
def sum_div_x (b : Build) (hk : Hooks) : State → List (Tick × report_mouse_t) → Int
  | _, [] => 0
  | s, (t, r) :: l =>
    drag_div_x (process_wheel b hk t s) r +
      sum_div_x b hk (pointing_device_task_kb_body b hk t s r).1 l

/-- Sum of the `div_y` of every call of a sequence. -/
def sum_div_y (b : Build) (hk : Hooks) : State → List (Tick × report_mouse_t) → Int
  | _, [] => 0
  | s, (t, r) :: l =>
    drag_div_y (process_wheel b hk t s) r +
      sum_div_y b hk (pointing_device_task_kb_body b hk t s r).1 l

/-- Sum of what line 146 adds to `_dragscroll_accumulator_x` over a sequence. -/
def sum_add_x : List (Tick × report_mouse_t) → Int
  | [] => 0
  | (_, r) :: l => (rubberband r).x + sum_add_x l

/-- Sum of what line 147 adds to `_dragscroll_accumulator_y` over a sequence. -/
def sum_add_y : List (Tick × report_mouse_t) → Int
  | [] => 0
  | (_, r) :: l => -(rubberband r).y + sum_add_y l

/-- A press of the key that carries `DPI_CONFIG`, at matrix position `key`. -/
def dpi_config_press (b : Build) (hk : Hooks) (now : Nat) (key : keypos_t) (s : State) : State :=
  (process_record_kb b hk now b.DPI_CONFIG ⟨⟨key, true⟩⟩ s).1

/-- A sequence of `DRAG_SCROLL` key events, each given with the time of its call. -/
def drag_scroll_events (b : Build) (hk : Hooks) : State → List (Nat × keyrecord_t) → State
  | s, [] => s
  | s, (now, record) :: l =>
    drag_scroll_events b hk (process_record_kb b hk now b.DRAG_SCROLL record s).1 l

/-- The pressed flags of a sequence of key events alternate, the first being the negation of
`d`: the events of one key that is held exactly when `d` is true. -/
def alternates : Bool → List (Nat × keyrecord_t) → Bool
  | _, [] => true
  | d, (_, record) :: l => (record.event.pressed != d) && alternates record.event.pressed l

/-- The pressed flag of the last event of a sequence, `d` for the empty sequence. -/
def last_pressed : Bool → List (Nat × keyrecord_t) → Bool
  | d, [] => d
  | _, (_, record) :: l => last_pressed record.event.pressed l

/-! ## Concrete inputs -/

/-- A build with direct reports, the default hooks of the file and distinct keycodes. -/
def build_default : Build := ⟨false, false, false, 24000, 24001, 217, 218⟩

/-- The weak defaults: every hook accepts and returns its argument; the decoder is idle. -/
def hooks_default : Hooks := ⟨fun _ _ => true, fun _ _ => true, fun r => r, fun _ _ => 0⟩

/-- A tick at time 1000 with both channels at rest. -/
def tick_default : Tick := ⟨1000, 0, 0⟩

/-- The state after start-up with the default configuration loaded. -/
def state_start : State :=
  ⟨0, 0, ⟨1⟩, false, 0, 0, false, ⟨0, 0, 0, 0, 0⟩, [], [], 1, [], []⟩

/-- The start-up state with drag-scroll switched on. -/
def state_drag : State := { state_start with is_drag_scroll := true }

/-! ## Lemmas on machine integers -/

theorem wrap_int_of_fits (n : Int) (h : fits_int n) : wrap_int n = n := by
  unfold fits_int INT_MIN INT_MAX at h
  unfold wrap_int
  omega

theorem wrap_int_fits (n : Int) : fits_int (wrap_int n) := by
  unfold fits_int INT_MIN INT_MAX wrap_int
  omega

theorem wrap_int8_of_fits (n : Int) (h : fits_int8 n) : wrap_int8 n = n := by
  unfold fits_int8 at h
  unfold wrap_int8
  omega

theorem tdiv_nonneg_eq (a d : Int) (ha : 0 ≤ a) (hd : 0 ≤ d) : a.tdiv d = a / d :=
  Int.tdiv_eq_ediv ha hd

theorem tdiv_neg_eq (a d : Int) (ha : a < 0) (hd : 0 ≤ d) : a.tdiv d = -((-a) / d) := by
  have h := Int.neg_tdiv (-a) d
  rw [Int.neg_neg] at h
  rw [h, Int.tdiv_eq_ediv (by omega) hd]

/-- The quotient by 200 and the reset of lines 151-159 on a representable accumulator. -/
theorem reset_x (a : Int) (ha : fits_int a) :
    int_div a 200 = a.tdiv 200 ∧
    (if int_div a 200 ≠ 0 then int_sub a (int_mul (int_div a 200) 200) else a)
      = a - 200 * a.tdiv 200 ∧
    fits_int (a.tdiv 200 * 200) ∧ fits_int (a - a.tdiv 200 * 200) ∧
    -200 < a - 200 * a.tdiv 200 ∧ a - 200 * a.tdiv 200 < 200 ∧
    (-200 < a → a < 200 → a.tdiv 200 = 0) ∧
    (-400 < a → a < 400 → -1 ≤ a.tdiv 200 ∧ a.tdiv 200 ≤ 1) := by
  unfold fits_int INT_MIN INT_MAX at *
  unfold int_div int_sub int_mul wrap_int
  rcases Int.lt_or_le a 0 with h | h
  · rw [tdiv_neg_eq a 200 h (by decide)]
    split_ifs <;> omega
  · rw [tdiv_nonneg_eq a 200 h (by decide)]
    split_ifs <;> omega

/-- The quotient by 100 and the reset of lines 152-166 on a representable accumulator. -/
theorem reset_y (a : Int) (ha : fits_int a) :
    int_div a 100 = a.tdiv 100 ∧
    (if int_div a 100 ≠ 0 then int_sub a (int_mul (int_div a 100) 100) else a)
      = a - 100 * a.tdiv 100 ∧
    fits_int (a.tdiv 100 * 100) ∧ fits_int (a - a.tdiv 100 * 100) ∧
    -100 < a - 100 * a.tdiv 100 ∧ a - 100 * a.tdiv 100 < 100 ∧
    (-100 < a → a < 100 → a.tdiv 100 = 0) ∧
    (-300 < a → a < 300 → -2 ≤ a.tdiv 100 ∧ a.tdiv 100 ≤ 2) := by
  unfold fits_int INT_MIN INT_MAX at *
  unfold int_div int_sub int_mul wrap_int
  rcases Int.lt_or_le a 0 with h | h
  · rw [tdiv_neg_eq a 100 h (by decide)]
    split_ifs <;> omega
  · rw [tdiv_nonneg_eq a 100 h (by decide)]
    split_ifs <;> omega

/-! ## Lemmas on the functions -/

theorem process_wheel_eq (b : Build) (hk : Hooks) (t : Tick) (s : State) :
    process_wheel b hk t s = s := by
  unfold process_wheel
  simp [PLOOPY_DISABLE_SCROLLWHEEL]

theorem rubberband_h (r : report_mouse_t) : (rubberband r).h = r.h := by
  unfold rubberband
  simp only []
  split_ifs <;> rfl

theorem rubberband_v (r : report_mouse_t) : (rubberband r).v = r.v := by
  unfold rubberband
  simp only []
  split_ifs <;> rfl

theorem rubberband_buttons (r : report_mouse_t) : (rubberband r).buttons = r.buttons := by
  unfold rubberband
  simp only []
  split_ifs <;> rfl

/-- What the comparisons leave in `x` is `x` or `0`, and likewise for `y`. -/
theorem rubberband_cases (r : report_mouse_t) :
    ((rubberband r).x = r.x ∨ (rubberband r).x = 0) ∧
    ((rubberband r).y = r.y ∨ (rubberband r).y = 0) := by
  unfold rubberband
  simp only []
  split_ifs <;> simp

/-- The drag-scroll block written with the quantities above. -/
theorem drag_scroll_eq (s : State) (r : report_mouse_t) :
    drag_scroll s r =
      ({ s with
          _dragscroll_accumulator_x :=
            if drag_div_x s r ≠ 0 then
              int_sub (drag_acc_x s r) (int_mul (drag_div_x s r) PLOOPY_DRAGSCROLL_DENOMINATOR_X)
            else drag_acc_x s r
          _dragscroll_accumulator_y :=
            if drag_div_y s r ≠ 0 then
              int_sub (drag_acc_y s r) (int_mul (drag_div_y s r) PLOOPY_DRAGSCROLL_DENOMINATOR_Y)
            else drag_acc_y s r },
       { buttons := r.buttons
         x := 0
         y := 0
         v := if drag_div_y s r ≠ 0 then wrap_int8 (r.v + drag_div_y s r) else r.v
         h := if drag_div_x s r ≠ 0 then wrap_int8 (r.h + drag_div_x s r) else r.h }) := by
  have hh := rubberband_h r
  have hv := rubberband_v r
  have hb := rubberband_buttons r
  by_cases hx : drag_div_x s r = 0 <;> by_cases hy : drag_div_y s r = 0 <;>
    simp [drag_div_x, drag_div_y, drag_acc_x, drag_acc_y] at hx hy <;>
    simp [drag_scroll, drag_div_x, drag_div_y, drag_acc_x, drag_acc_y, hx, hy, hh, hv, hb]

/-- One call in drag-scroll mode is the drag-scroll block on the unchanged state. -/
theorem body_drag (b : Build) (hk : Hooks) (t : Tick) (s : State) (r : report_mouse_t)
    (hds : s.is_drag_scroll = true) :
    pointing_device_task_kb_body b hk t s r = drag_scroll s r := by
  unfold pointing_device_task_kb_body
  simp [process_wheel_eq, hds]

/-- One call outside drag-scroll mode changes nothing. -/
theorem body_no_drag (b : Build) (hk : Hooks) (t : Tick) (s : State) (r : report_mouse_t)
    (hds : s.is_drag_scroll = false) :
    pointing_device_task_kb_body b hk t s r = (s, r) := by
  unfold pointing_device_task_kb_body
  simp [process_wheel_eq, hds]

/-! ## The drag-scroll converter -/

/-- C1. Rate conversion: in drag-scroll mode, with `x'`, `y'` the displacements left by the
comparisons, `ax` the C sum `accX + x'` and `ay` the C difference `accY - y'`, one call gives
`h_new = h + qx` and `accX_new = ax - 200 * qx` with `qx = ax / 200` truncated toward zero,
and `v_new = v + qy` and `accY_new = ay - 100 * qy` with `qy = ay / 100` truncated toward
zero (`h`, `v` reduced to the 8-bit field); `qx`, `qy` are the locals `div_x`, `div_y`; and
`ax`, `ay` are the exact sum and difference whenever these are representable. -/
theorem drag_scroll_rate_conversion (b : Build) (hk : Hooks) (t : Tick) (s : State)
    (r : report_mouse_t) (hds : s.is_drag_scroll = true)
    (hh : fits_int8 r.h) (hv : fits_int8 r.v) :
    let out := pointing_device_task_kb_body b hk t s r
    let ax := int_add s._dragscroll_accumulator_x (rubberband r).x
    let ay := int_sub s._dragscroll_accumulator_y (rubberband r).y
    let qx := ax.tdiv 200
    let qy := ay.tdiv 100
    drag_div_x s r = qx ∧ drag_div_y s r = qy ∧
    out.2.h = wrap_int8 (r.h + qx) ∧
    out.1._dragscroll_accumulator_x = ax - 200 * qx ∧
    out.2.v = wrap_int8 (r.v + qy) ∧
    out.1._dragscroll_accumulator_y = ay - 100 * qy ∧
    (fits_int (s._dragscroll_accumulator_x + (rubberband r).x) →
      ax = s._dragscroll_accumulator_x + (rubberband r).x) ∧
    (fits_int (s._dragscroll_accumulator_y - (rubberband r).y) →
      ay = s._dragscroll_accumulator_y - (rubberband r).y) := by
  intro out ax ay qx qy
  have hx := reset_x ax (wrap_int_fits _)
  have hy := reset_y ay (wrap_int_fits _)
  have hdx : drag_div_x s r = qx := hx.1
  have hdy : drag_div_y s r = qy := hy.1
  have hout : out = drag_scroll s r := body_drag b hk t s r hds
  rw [hout, drag_scroll_eq]
  refine ⟨hdx, hdy, ?_, ?_, ?_, ?_, fun h => wrap_int_of_fits _ h, fun h => wrap_int_of_fits _ h⟩
  · show (if drag_div_x s r ≠ 0 then wrap_int8 (r.h + drag_div_x s r) else r.h) = _
    rw [hdx]
    split_ifs with h0
    · rfl
    · have h1 : qx = 0 := by simpa using h0
      rw [h1, Int.add_zero, wrap_int8_of_fits _ hh]
  · exact hx.2.1
  · show (if drag_div_y s r ≠ 0 then wrap_int8 (r.v + drag_div_y s r) else r.v) = _
    rw [hdy]
    split_ifs with h0
    · rfl
    · have h1 : qy = 0 := by simpa using h0
      rw [h1, Int.add_zero, wrap_int8_of_fits _ hv]
  · exact hy.2.1

/-- C1, the scenario of the spec: from `accX = 0` a report with `x = 150` gives `div_x = 0`,
`accX = 150` and leaves `h`; a further report with `x = 60` gives `div_x = 1`, `h` one
higher and `accX = 10`. -/
theorem drag_scroll_rate_conversion_witness :
    state_drag._dragscroll_accumulator_x = 0 ∧
    drag_div_x state_drag ⟨0, 150, 0, 0, 0⟩ = 0 ∧
    (pointing_device_task_kb_body build_default hooks_default tick_default state_drag
      ⟨0, 150, 0, 0, 0⟩).1._dragscroll_accumulator_x = 150 ∧
    (pointing_device_task_kb_body build_default hooks_default tick_default state_drag
      ⟨0, 150, 0, 0, 0⟩).2.h = 0 ∧
    drag_div_x { state_drag with _dragscroll_accumulator_x := 150 } ⟨0, 60, 0, 0, 0⟩ = 1 ∧
    (pointing_device_task_kb_body build_default hooks_default tick_default
      { state_drag with _dragscroll_accumulator_x := 150 }
      ⟨0, 60, 0, 0, 0⟩).1._dragscroll_accumulator_x = 10 ∧
    (pointing_device_task_kb_body build_default hooks_default tick_default
      { state_drag with _dragscroll_accumulator_x := 150 } ⟨0, 60, 0, 0, 0⟩).2.h = 1 := by
  have h1 := drag_scroll_rate_conversion build_default hooks_default tick_default state_drag
    ⟨0, 150, 0, 0, 0⟩ rfl (by decide) (by decide)
  have h2 := drag_scroll_rate_conversion build_default hooks_default tick_default
    { state_drag with _dragscroll_accumulator_x := 150 } ⟨0, 60, 0, 0, 0⟩ rfl
    (by decide) (by decide)
  exact ⟨rfl, h1.1.trans (by decide), h1.2.2.2.1.trans (by decide), h1.2.2.1.trans (by decide),
    h2.1.trans (by decide), h2.2.2.2.1.trans (by decide), h2.2.2.1.trans (by decide)⟩

/-- C2. The comparisons of lines 138-143 are on signed values: a report that moves along one
axis in the negative direction (`x = -10, y = 0`, or `x = 0, y = -10`) has that axis set to
zero, and a report with `x = -1, y = -1` has both axes set to zero; nothing reaches the
accumulators and the report handed on carries no scroll. -/
theorem drag_scroll_discards_negative_motion :
    rubberband ⟨0, -10, 0, 0, 0⟩ = ⟨0, 0, 0, 0, 0⟩ ∧
    rubberband ⟨0, 0, -10, 0, 0⟩ = ⟨0, 0, 0, 0, 0⟩ ∧
    rubberband ⟨0, -1, -1, 0, 0⟩ = ⟨0, 0, 0, 0, 0⟩ ∧
    pointing_device_task_kb_body build_default hooks_default tick_default state_drag
      ⟨0, -10, 0, 0, 0⟩ = (state_drag, ⟨0, 0, 0, 0, 0⟩) ∧
    pointing_device_task_kb_body build_default hooks_default tick_default state_drag
      ⟨0, 0, -10, 0, 0⟩ = (state_drag, ⟨0, 0, 0, 0, 0⟩) := by
  decide

/-- The vertical results of the block depend on the report only through the `y` left by
the comparisons and through `v`. -/
theorem drag_scroll_vertical_congr (s : State) (r1 r2 : report_mouse_t)
    (hy : (rubberband r1).y = (rubberband r2).y) (hv : r1.v = r2.v) :
    (drag_scroll s r1).1._dragscroll_accumulator_y =
      (drag_scroll s r2).1._dragscroll_accumulator_y ∧
    (drag_scroll s r1).2.v = (drag_scroll s r2).2.v := by
  have ha : drag_acc_y s r1 = drag_acc_y s r2 := by unfold drag_acc_y; rw [hy]
  have hd : drag_div_y s r1 = drag_div_y s r2 := by unfold drag_div_y; rw [ha]
  rw [drag_scroll_eq, drag_scroll_eq]
  simp only [ha, hd, hv, and_self]

/-- The horizontal results of the block depend on the report only through the `x` left by
the comparisons and through `h`. -/
theorem drag_scroll_horizontal_congr (s : State) (r1 r2 : report_mouse_t)
    (hx : (rubberband r1).x = (rubberband r2).x) (hh : r1.h = r2.h) :
    (drag_scroll s r1).1._dragscroll_accumulator_x =
      (drag_scroll s r2).1._dragscroll_accumulator_x ∧
    (drag_scroll s r1).2.h = (drag_scroll s r2).2.h := by
  have ha : drag_acc_x s r1 = drag_acc_x s r2 := by unfold drag_acc_x; rw [hx]
  have hd : drag_div_x s r1 = drag_div_x s r2 := by unfold drag_div_x; rw [ha]
  rw [drag_scroll_eq, drag_scroll_eq]
  simp only [ha, hd, hh, and_self]

/-- The products of the comparisons are exact on 8-bit displacements. -/
theorem int_mul_five (n : Int) (h : fits_int8 n) :
    int_mul n PLOOPY_DRAGSCROLL_RUBBERBAND_MULT = 5 * n := by
  unfold fits_int8 at h
  unfold int_mul wrap_int PLOOPY_DRAGSCROLL_RUBBERBAND_MULT
  omega

/-- A report whose `y` is zero keeps it through the comparisons. -/
theorem rubberband_y_zero (r : report_mouse_t) (h : r.y = 0) : (rubberband r).y = 0 := by
  rcases (rubberband_cases r).2 with h1 | h1
  · rw [h1, h]
  · exact h1

/-- A report whose `x` is zero keeps it through the comparisons. -/
theorem rubberband_x_zero (r : report_mouse_t) (h : r.x = 0) : (rubberband r).x = 0 := by
  rcases (rubberband_cases r).1 with h1 | h1
  · rw [h1, h]
  · exact h1

/-- With `x > 5 * y` the comparisons leave `y = 0`. -/
theorem rubberband_x_dominates (r : report_mouse_t) (hy : fits_int8 r.y)
    (h : r.x > 5 * r.y) : (rubberband r).y = 0 := by
  have h5 := int_mul_five r.y hy
  unfold rubberband
  simp only [h5, h, if_true]
  split_ifs <;> rfl

/-- With `y > 5 * x` the comparisons leave `x = 0`. -/
theorem rubberband_y_dominates (r : report_mouse_t) (hx : fits_int8 r.x) (hy : fits_int8 r.y)
    (h : r.y > 5 * r.x) : (rubberband r).x = 0 := by
  have h5y := int_mul_five r.y hy
  have h5x := int_mul_five r.x hx
  unfold rubberband
  simp only [h5y, h5x]
  by_cases h1 : r.x > 5 * r.y
  · have h2 : (0 : Int) > 5 * r.x := by omega
    simp only [h1, if_true, h5x, h2]
  · simp only [h1, if_false, h5x, h, if_true]

/-- C3. Axis-dominance suppression: in drag-scroll mode, for a report of 8-bit displacements
with `x > 5 * y` the `y` component is zero before accumulation, and `accY` and `v` come out
as for the same report with `y = 0`; for a report with `y > 5 * x` the `x` component is zero
before accumulation, and `accX` and `h` come out as for the same report with `x = 0`. -/
theorem rubberband_axis_dominance (b : Build) (hk : Hooks) (t : Tick) (s : State)
    (r : report_mouse_t) (hds : s.is_drag_scroll = true)
    (hx : fits_int8 r.x) (hy : fits_int8 r.y) :
    (r.x > 5 * r.y →
      (rubberband r).y = 0 ∧
      (pointing_device_task_kb_body b hk t s r).1._dragscroll_accumulator_y =
        (pointing_device_task_kb_body b hk t s { r with y := 0 }).1._dragscroll_accumulator_y ∧
      (pointing_device_task_kb_body b hk t s r).2.v =
        (pointing_device_task_kb_body b hk t s { r with y := 0 }).2.v) ∧
    (r.y > 5 * r.x →
      (rubberband r).x = 0 ∧
      (pointing_device_task_kb_body b hk t s r).1._dragscroll_accumulator_x =
        (pointing_device_task_kb_body b hk t s { r with x := 0 }).1._dragscroll_accumulator_x ∧
      (pointing_device_task_kb_body b hk t s r).2.h =
        (pointing_device_task_kb_body b hk t s { r with x := 0 }).2.h) := by
  rw [body_drag b hk t s r hds, body_drag b hk t s _ hds, body_drag b hk t s _ hds]
  constructor
  · intro h
    have h0 := rubberband_x_dominates r hy h
    exact ⟨h0, drag_scroll_vertical_congr s r { r with y := 0 }
      (h0.trans (rubberband_y_zero _ rfl).symm) rfl⟩
  · intro h
    have h0 := rubberband_y_dominates r hx hy h
    exact ⟨h0, drag_scroll_horizontal_congr s r { r with x := 0 }
      (h0.trans (rubberband_x_zero _ rfl).symm) rfl⟩

/-- C3 at `x = 30, y = 4` (x dominates) and at `x = -3, y = -2` (both comparisons hold, so
both directions are removed). -/
theorem rubberband_axis_dominance_witness :
    state_drag.is_drag_scroll = true ∧
    (rubberband ⟨0, 30, 4, 0, 0⟩).y = 0 ∧
    (pointing_device_task_kb_body build_default hooks_default tick_default state_drag
        ⟨0, 30, 4, 0, 0⟩).1._dragscroll_accumulator_y =
      (pointing_device_task_kb_body build_default hooks_default tick_default state_drag
        ⟨0, 30, 0, 0, 0⟩).1._dragscroll_accumulator_y ∧
    (rubberband ⟨0, -3, -2, 0, 0⟩).x = 0 ∧
    (rubberband ⟨0, -3, -2, 0, 0⟩).y = 0 := by
  have h1 := (rubberband_axis_dominance build_default hooks_default tick_default state_drag
    ⟨0, 30, 4, 0, 0⟩ rfl (by decide) (by decide)).1 (by decide)
  have h2 := rubberband_axis_dominance build_default hooks_default tick_default state_drag
    ⟨0, -3, -2, 0, 0⟩ rfl (by decide) (by decide)
  exact ⟨rfl, h1.1, h1.2.1, (h2.2 (by decide)).1, (h2.1 (by decide)).1⟩

/-- One pass of the block leaves both remainders smaller than their denominators. -/
theorem drag_scroll_acc_inv (s : State) (r : report_mouse_t) : acc_inv (drag_scroll s r).1 := by
  have hx := reset_x (drag_acc_x s r) (wrap_int_fits _)
  have hy := reset_y (drag_acc_y s r) (wrap_int_fits _)
  rw [drag_scroll_eq]
  unfold acc_inv
  refine ⟨?_, ?_⟩
  · show |if drag_div_x s r ≠ 0 then _ else _| < PLOOPY_DRAGSCROLL_DENOMINATOR_X
    unfold drag_div_x PLOOPY_DRAGSCROLL_DENOMINATOR_X
    rw [hx.2.1]
    exact abs_lt.mpr ⟨hx.2.2.2.2.1, hx.2.2.2.2.2.1⟩
  · show |if drag_div_y s r ≠ 0 then _ else _| < PLOOPY_DRAGSCROLL_DENOMINATOR_Y
    unfold drag_div_y PLOOPY_DRAGSCROLL_DENOMINATOR_Y
    rw [hy.2.1]
    exact abs_lt.mpr ⟨hy.2.2.2.2.1, hy.2.2.2.2.2.1⟩

/-- Key events leave the accumulators and the drag-scroll block alone. -/
theorem process_record_kb_acc (b : Build) (hk : Hooks) (now keycode : Nat)
    (record : keyrecord_t) (s : State) :
    (process_record_kb b hk now keycode record s).1._dragscroll_accumulator_x =
      s._dragscroll_accumulator_x ∧
    (process_record_kb b hk now keycode record s).1._dragscroll_accumulator_y =
      s._dragscroll_accumulator_y := by
  unfold process_record_kb
  simp only []
  split_ifs <;> simp [eeconfig_update_kb, pointing_device_set_cpi]

/-- The load of the configuration leaves the accumulators alone. -/
theorem matrix_init_kb_acc (s : State) :
    (matrix_init_kb s)._dragscroll_accumulator_x = s._dragscroll_accumulator_x ∧
    (matrix_init_kb s)._dragscroll_accumulator_y = s._dragscroll_accumulator_y := by
  unfold matrix_init_kb eeconfig_init_kb
  simp only []
  split_ifs <;> simp [eeconfig_update_kb]

/-- One call keeps the invariant of the remainders. -/
theorem body_acc_inv (b : Build) (hk : Hooks) (t : Tick) (s : State) (r : report_mouse_t)
    (h : acc_inv s) : acc_inv (pointing_device_task_kb_body b hk t s r).1 := by
  cases hds : s.is_drag_scroll
  · rw [body_no_drag b hk t s r hds]
    exact h
  · rw [body_drag b hk t s r hds]
    exact drag_scroll_acc_inv s r

/-- The invariant of the remainders holds in every reachable state. -/
theorem reachable_acc_inv (b : Build) (hk : Hooks) (s : State) (h : Reachable b hk s) :
    acc_inv s := by
  induction h with
  | init s hx hy =>
    unfold acc_inv PLOOPY_DRAGSCROLL_DENOMINATOR_X PLOOPY_DRAGSCROLL_DENOMINATOR_Y
    rw [hx, hy]
    simp
  | task s t r _ ih => exact body_acc_inv b hk t s r ih
  | record s now keycode record _ ih =>
    have h := process_record_kb_acc b hk now keycode record s
    unfold acc_inv at *
    rw [h.1, h.2]
    exact ih
  | matrix_init s _ ih =>
    have h := matrix_init_kb_acc s
    unfold acc_inv at *
    rw [h.1, h.2]
    exact ih

/-- With remainders inside their bounds and 8-bit displacements no `int` operation of the
block leaves the `int` range. -/
theorem no_overflow_of_acc_inv (s : State) (r : report_mouse_t) (h : acc_inv s)
    (hx : fits_int8 r.x) (hy : fits_int8 r.y) : drag_scroll_no_overflow s r := by
  obtain ⟨h1, h2⟩ := h
  unfold PLOOPY_DRAGSCROLL_DENOMINATOR_X at h1
  unfold PLOOPY_DRAGSCROLL_DENOMINATOR_Y at h2
  rw [abs_lt] at h1 h2
  have hrx := reset_x (drag_acc_x s r) (wrap_int_fits _)
  have hry := reset_y (drag_acc_y s r) (wrap_int_fits _)
  have hc := rubberband_cases r
  unfold fits_int8 at hx hy
  unfold drag_scroll_no_overflow
  unfold drag_div_x drag_div_y PLOOPY_DRAGSCROLL_DENOMINATOR_X PLOOPY_DRAGSCROLL_DENOMINATOR_Y
    PLOOPY_DRAGSCROLL_RUBBERBAND_MULT
  rw [hrx.1, hry.1]
  refine ⟨?_, ?_, ?_, ?_, hrx.2.2.1, hrx.2.2.2.1, hry.2.2.1, hry.2.2.2.1⟩ <;>
    unfold fits_int INT_MIN INT_MAX <;> rcases hc with ⟨hcx | hcx, hcy | hcy⟩ <;> omega

/-- C4. Remainder invariant: after one call in drag-scroll mode, from any accumulators and for
any report, `|accX| < 200` and `|accY| < 100`; the invariant holds in every state reachable
from accumulators `(0, 0)`; and in every such state, for 8-bit displacements, no `int`
operation of the block overflows the 16-bit `int`. -/
theorem dragscroll_remainder_invariant (b : Build) (hk : Hooks) :
    (∀ (t : Tick) (s : State) (r : report_mouse_t), s.is_drag_scroll = true →
      |(pointing_device_task_kb b hk t s r).1._dragscroll_accumulator_x| < 200 ∧
      |(pointing_device_task_kb b hk t s r).1._dragscroll_accumulator_y| < 100) ∧
    (∀ s : State, Reachable b hk s →
      |s._dragscroll_accumulator_x| < 200 ∧ |s._dragscroll_accumulator_y| < 100) ∧
    (∀ (s : State) (r : report_mouse_t), Reachable b hk s → fits_int8 r.x → fits_int8 r.y →
      drag_scroll_no_overflow s r) := by
  refine ⟨?_, ?_, ?_⟩
  · intro t s r hds
    have h : (pointing_device_task_kb b hk t s r).1 = (drag_scroll s r).1 := by
      rw [← body_drag b hk t s r hds]
      rfl
    rw [h]
    exact drag_scroll_acc_inv s r
  · intro s hs
    exact reachable_acc_inv b hk s hs
  · intro s r hs hx hy
    exact no_overflow_of_acc_inv s r (reachable_acc_inv b hk s hs) hx hy

/-- C4 at a state reached by one report with `x = 127, y = -128` from the start, and for a
call from accumulators far outside the bounds. -/
theorem dragscroll_remainder_invariant_witness :
    |(pointing_device_task_kb build_default hooks_default tick_default
        { state_drag with _dragscroll_accumulator_x := 32767,
                          _dragscroll_accumulator_y := -32768 }
        ⟨0, 127, 127, 0, 0⟩).1._dragscroll_accumulator_x| < 200 ∧
    Reachable build_default hooks_default
      (pointing_device_task_kb build_default hooks_default tick_default state_drag
        ⟨0, 127, -128, 0, 0⟩).1 ∧
    drag_scroll_no_overflow
      (pointing_device_task_kb build_default hooks_default tick_default state_drag
        ⟨0, 127, -128, 0, 0⟩).1 ⟨0, -128, 127, 0, 0⟩ := by
  have h := dragscroll_remainder_invariant build_default hooks_default
  have hr : Reachable build_default hooks_default
      (pointing_device_task_kb build_default hooks_default tick_default state_drag
        ⟨0, 127, -128, 0, 0⟩).1 :=
    Reachable.task _ _ _ (Reachable.init _ rfl rfl)
  exact ⟨(h.1 tick_default _ ⟨0, 127, 127, 0, 0⟩ rfl).1, hr,
    h.2.2 _ ⟨0, -128, 127, 0, 0⟩ hr (by decide) (by decide)⟩

/-- A report without motion passes the comparisons unchanged. -/
theorem rubberband_zero (r : report_mouse_t) (hx : r.x = 0) (hy : r.y = 0) :
    rubberband r = r := by
  unfold rubberband int_mul wrap_int PLOOPY_DRAGSCROLL_RUBBERBAND_MULT
  simp [hx, hy]

/-- With remainders inside their bounds a call without motion changes neither the state nor
the report. -/
theorem body_zero_motion (b : Build) (hk : Hooks) (t : Tick) (s : State) (r : report_mouse_t)
    (h : acc_inv s) (hx : r.x = 0) (hy : r.y = 0) :
    pointing_device_task_kb_body b hk t s r = (s, r) := by
  cases hds : s.is_drag_scroll
  · exact body_no_drag b hk t s r hds
  · obtain ⟨h1, h2⟩ := h
    unfold PLOOPY_DRAGSCROLL_DENOMINATOR_X at h1
    unfold PLOOPY_DRAGSCROLL_DENOMINATOR_Y at h2
    rw [abs_lt] at h1 h2
    have hax : drag_acc_x s r = s._dragscroll_accumulator_x := by
      unfold drag_acc_x int_add wrap_int
      rw [rubberband_zero r hx hy, hx]
      omega
    have hay : drag_acc_y s r = s._dragscroll_accumulator_y := by
      unfold drag_acc_y int_sub wrap_int
      rw [rubberband_zero r hx hy, hy]
      omega
    have hrx := reset_x (drag_acc_x s r) (wrap_int_fits _)
    have hry := reset_y (drag_acc_y s r) (wrap_int_fits _)
    have hdx : drag_div_x s r = 0 := by
      unfold drag_div_x PLOOPY_DRAGSCROLL_DENOMINATOR_X
      rw [hrx.1]
      exact hrx.2.2.2.2.2.2.1 (by omega) (by omega)
    have hdy : drag_div_y s r = 0 := by
      unfold drag_div_y PLOOPY_DRAGSCROLL_DENOMINATOR_Y
      rw [hry.1]
      exact hry.2.2.2.2.2.2.1 (by omega) (by omega)
    rw [body_drag b hk t s r hds, drag_scroll_eq, hdx, hdy, hax, hay]
    have hr : (⟨r.buttons, 0, 0, r.v, r.h⟩ : report_mouse_t) = r := by
      obtain ⟨rb, rx, ry, rv, rh⟩ := r
      simp only at hx hy
      rw [hx, hy]
    simp [hr]

/-- A sequence of calls without motion changes neither the state nor any report. -/
theorem run_reports_zero_motion (b : Build) (hk : Hooks) (l : List (Tick × report_mouse_t)) :
    ∀ s : State, acc_inv s → (∀ p ∈ l, p.2.x = 0 ∧ p.2.y = 0) →
      run_reports b hk s l = (s, l.map Prod.snd) := by
  induction l with
  | nil => intro s _ _; rfl
  | cons p l ih =>
    intro s hs hl
    obtain ⟨t, r⟩ := p
    have hr := hl (t, r) (List.mem_cons_self _ _)
    have h1 := body_zero_motion b hk t s r hs hr.1 hr.2
    have h2 := ih s hs (fun q hq => hl q (List.mem_cons_of_mem _ hq))
    simp only [run_reports, h1, h2, List.map_cons]

/-- C5. Zero-motion idempotence: in every state reachable from accumulators `(0, 0)`, a call
in drag-scroll mode with `x = 0` and `y = 0` leaves `h`, `v` and both accumulators unchanged,
and so does every sequence of such calls, for each report of the sequence. -/
theorem zero_motion_idempotent (b : Build) (hk : Hooks) (s : State)
    (hs : Reachable b hk s) (hds : s.is_drag_scroll = true) :
    (∀ (t : Tick) (r : report_mouse_t), r.x = 0 → r.y = 0 →
      (pointing_device_task_kb_body b hk t s r).2.h = r.h ∧
      (pointing_device_task_kb_body b hk t s r).2.v = r.v ∧
      (pointing_device_task_kb_body b hk t s r).1._dragscroll_accumulator_x =
        s._dragscroll_accumulator_x ∧
      (pointing_device_task_kb_body b hk t s r).1._dragscroll_accumulator_y =
        s._dragscroll_accumulator_y) ∧
    (∀ l : List (Tick × report_mouse_t), (∀ p ∈ l, p.2.x = 0 ∧ p.2.y = 0) →
      (run_reports b hk s l).2.map (fun r => (r.h, r.v)) = l.map (fun p => (p.2.h, p.2.v)) ∧
      (run_reports b hk s l).1._dragscroll_accumulator_x = s._dragscroll_accumulator_x ∧
      (run_reports b hk s l).1._dragscroll_accumulator_y = s._dragscroll_accumulator_y ∧
      (run_reports b hk s l).1.is_drag_scroll = true) := by
  have hinv := reachable_acc_inv b hk s hs
  constructor
  · intro t r hx hy
    rw [body_zero_motion b hk t s r hinv hx hy]
    exact ⟨rfl, rfl, rfl, rfl⟩
  · intro l hl
    rw [run_reports_zero_motion b hk l s hinv hl]
    refine ⟨?_, rfl, rfl, hds⟩
    simp [List.map_map, Function.comp_def]

/-- C5 at the state reached from the start by a report with `x = 120`: three reports without
motion and with `h = 7, v = -3` come out with the same `h`, `v`, and `accX` stays `120`. -/
theorem zero_motion_idempotent_witness :
    (pointing_device_task_kb build_default hooks_default tick_default state_drag
        ⟨0, 120, 0, 0, 0⟩).1._dragscroll_accumulator_x = 120 ∧
    (run_reports build_default hooks_default
        (pointing_device_task_kb build_default hooks_default tick_default state_drag
          ⟨0, 120, 0, 0, 0⟩).1
        [(tick_default, ⟨0, 0, 0, -3, 7⟩), (tick_default, ⟨0, 0, 0, -3, 7⟩),
         (tick_default, ⟨0, 0, 0, -3, 7⟩)]).2.map (fun r => (r.h, r.v))
      = [(7, -3), (7, -3), (7, -3)] ∧
    (run_reports build_default hooks_default
        (pointing_device_task_kb build_default hooks_default tick_default state_drag
          ⟨0, 120, 0, 0, 0⟩).1
        [(tick_default, ⟨0, 0, 0, -3, 7⟩), (tick_default, ⟨0, 0, 0, -3, 7⟩),
         (tick_default, ⟨0, 0, 0, -3, 7⟩)]).1._dragscroll_accumulator_x = 120 := by
  have h := (zero_motion_idempotent build_default hooks_default
    (pointing_device_task_kb build_default hooks_default tick_default state_drag
      ⟨0, 120, 0, 0, 0⟩).1
    (Reachable.task _ _ _ (Reachable.init _ rfl rfl)) rfl).2
    [(tick_default, ⟨0, 0, 0, -3, 7⟩), (tick_default, ⟨0, 0, 0, -3, 7⟩),
     (tick_default, ⟨0, 0, 0, -3, 7⟩)] (by decide)
  exact ⟨by decide, h.1, h.2.1.trans (by decide)⟩

/-- One pass on the horizontal axis: with the remainder inside its bound and an 8-bit `x`,
what is emitted and what is kept add up to what came in. -/
theorem drag_scroll_step_x (s : State) (r : report_mouse_t)
    (h : |s._dragscroll_accumulator_x| < 200) (hx : fits_int8 r.x) :
    200 * drag_div_x s r + (drag_scroll s r).1._dragscroll_accumulator_x =
      s._dragscroll_accumulator_x + (rubberband r).x ∧
    |(drag_scroll s r).1._dragscroll_accumulator_x| < 200 := by
  have hinv := (drag_scroll_acc_inv s r).1
  have hrx := reset_x (drag_acc_x s r) (wrap_int_fits _)
  have hax : drag_acc_x s r = s._dragscroll_accumulator_x + (rubberband r).x := by
    rw [abs_lt] at h
    unfold fits_int8 at hx
    unfold drag_acc_x int_add wrap_int
    rcases (rubberband_cases r).1 with hc | hc <;> omega
  refine ⟨?_, hinv⟩
  rw [drag_scroll_eq]
  show 200 * drag_div_x s r + (if drag_div_x s r ≠ 0 then _ else _) = _
  unfold drag_div_x PLOOPY_DRAGSCROLL_DENOMINATOR_X
  rw [hrx.2.1, hrx.1]
  omega

/-- One pass on the vertical axis: with the remainder inside its bound and an 8-bit `y`,
what is emitted and what is kept add up to what came in. -/
theorem drag_scroll_step_y (s : State) (r : report_mouse_t)
    (h : |s._dragscroll_accumulator_y| < 100) (hy : fits_int8 r.y) :
    100 * drag_div_y s r + (drag_scroll s r).1._dragscroll_accumulator_y =
      s._dragscroll_accumulator_y + -(rubberband r).y ∧
    |(drag_scroll s r).1._dragscroll_accumulator_y| < 100 := by
  have hinv := (drag_scroll_acc_inv s r).2
  have hry := reset_y (drag_acc_y s r) (wrap_int_fits _)
  have hay : drag_acc_y s r = s._dragscroll_accumulator_y - (rubberband r).y := by
    rw [abs_lt] at h
    unfold fits_int8 at hy
    unfold drag_acc_y int_sub wrap_int
    rcases (rubberband_cases r).2 with hc | hc <;> omega
  refine ⟨?_, hinv⟩
  rw [drag_scroll_eq]
  show 100 * drag_div_y s r + (if drag_div_y s r ≠ 0 then _ else _) = _
  unfold drag_div_y PLOOPY_DRAGSCROLL_DENOMINATOR_Y
  rw [hry.2.1, hry.1]
  omega

/-- The block does not change `is_drag_scroll`. -/
theorem drag_scroll_mode (s : State) (r : report_mouse_t) :
    (drag_scroll s r).1.is_drag_scroll = s.is_drag_scroll := by
  rw [drag_scroll_eq]

/-- Conservation on the horizontal axis from any remainder inside its bound. -/
theorem run_reports_conservation_x (b : Build) (hk : Hooks)
    (l : List (Tick × report_mouse_t)) :
    ∀ s : State, s.is_drag_scroll = true → |s._dragscroll_accumulator_x| < 200 →
      (∀ p ∈ l, fits_int8 p.2.x ∧ fits_int8 p.2.y) →
      200 * sum_div_x b hk s l + (run_reports b hk s l).1._dragscroll_accumulator_x =
        s._dragscroll_accumulator_x + sum_add_x l ∧
      |(run_reports b hk s l).1._dragscroll_accumulator_x| < 200 := by
  induction l with
  | nil =>
    intro s _ h _
    simp only [sum_div_x, run_reports, sum_add_x]
    exact ⟨by omega, h⟩
  | cons p l ih =>
    intro s hds h hl
    obtain ⟨t, r⟩ := p
    have hr := hl (t, r) (List.mem_cons_self _ _)
    have h1 := drag_scroll_step_x s r h hr.1
    have h2 := ih (drag_scroll s r).1 ((drag_scroll_mode s r).trans hds) h1.2
      (fun q hq => hl q (List.mem_cons_of_mem _ hq))
    simp only [sum_div_x, run_reports, sum_add_x, process_wheel_eq, body_drag b hk t s r hds]
    exact ⟨by omega, h2.2⟩

/-- Conservation on the vertical axis from any remainder inside its bound. -/
theorem run_reports_conservation_y (b : Build) (hk : Hooks)
    (l : List (Tick × report_mouse_t)) :
    ∀ s : State, s.is_drag_scroll = true → |s._dragscroll_accumulator_y| < 100 →
      (∀ p ∈ l, fits_int8 p.2.x ∧ fits_int8 p.2.y) →
      100 * sum_div_y b hk s l + (run_reports b hk s l).1._dragscroll_accumulator_y =
        s._dragscroll_accumulator_y + sum_add_y l ∧
      |(run_reports b hk s l).1._dragscroll_accumulator_y| < 100 := by
  induction l with
  | nil =>
    intro s _ h _
    simp only [sum_div_y, run_reports, sum_add_y]
    exact ⟨by omega, h⟩
  | cons p l ih =>
    intro s hds h hl
    obtain ⟨t, r⟩ := p
    have hr := hl (t, r) (List.mem_cons_self _ _)
    have h1 := drag_scroll_step_y s r h hr.2
    have h2 := ih (drag_scroll s r).1 ((drag_scroll_mode s r).trans hds) h1.2
      (fun q hq => hl q (List.mem_cons_of_mem _ hq))
    simp only [sum_div_y, run_reports, sum_add_y, process_wheel_eq, body_drag b hk t s r hds]
    exact ⟨by omega, h2.2⟩

/-- C6. Conservation of accumulated motion: for every sequence of reports with 8-bit
displacements processed in drag-scroll mode, starting from `accX = 0`, 200 times the sum of
the `div_x` plus the final `accX` is the sum of the `x` added to the accumulator, hence the
two sums differ by less than 200; likewise from `accY = 0` with denominator 100 and the
`-y` added to `accY`. -/
theorem drag_scroll_conservation (b : Build) (hk : Hooks) (s : State)
    (l : List (Tick × report_mouse_t)) (hds : s.is_drag_scroll = true)
    (hl : ∀ p ∈ l, fits_int8 p.2.x ∧ fits_int8 p.2.y) :
    (s._dragscroll_accumulator_x = 0 →
      200 * sum_div_x b hk s l + (run_reports b hk s l).1._dragscroll_accumulator_x =
        sum_add_x l ∧
      |sum_add_x l - 200 * sum_div_x b hk s l| < 200) ∧
    (s._dragscroll_accumulator_y = 0 →
      100 * sum_div_y b hk s l + (run_reports b hk s l).1._dragscroll_accumulator_y =
        sum_add_y l ∧
      |sum_add_y l - 100 * sum_div_y b hk s l| < 100) := by
  constructor
  · intro h0
    have h := run_reports_conservation_x b hk l s hds (by rw [h0]; simp) hl
    rw [h0, Int.zero_add] at h
    refine ⟨h.1, ?_⟩
    have h2 := h.2
    rw [abs_lt] at h2 ⊢
    constructor <;> omega
  · intro h0
    have h := run_reports_conservation_y b hk l s hds (by rw [h0]; simp) hl
    rw [h0, Int.zero_add] at h
    refine ⟨h.1, ?_⟩
    have h2 := h.2
    rw [abs_lt] at h2 ⊢
    constructor <;> omega

/-- C6 on four reports from the start: `x` = 127, 127, -100, 90 (with `y` = 3, -40, -30, 90)
add 344 to `accX` after the comparisons (the third `x` is removed), one unit is emitted and
`accX` ends at 144. -/
theorem drag_scroll_conservation_witness :
    sum_add_x [(tick_default, ⟨0, 127, 3, 0, 0⟩), (tick_default, ⟨0, 127, -40, 0, 0⟩),
      (tick_default, ⟨0, -100, -30, 0, 0⟩), (tick_default, ⟨0, 90, 90, 0, 0⟩)] = 344 ∧
    sum_div_x build_default hooks_default state_drag
      [(tick_default, ⟨0, 127, 3, 0, 0⟩), (tick_default, ⟨0, 127, -40, 0, 0⟩),
       (tick_default, ⟨0, -100, -30, 0, 0⟩), (tick_default, ⟨0, 90, 90, 0, 0⟩)] = 1 ∧
    200 * sum_div_x build_default hooks_default state_drag
      [(tick_default, ⟨0, 127, 3, 0, 0⟩), (tick_default, ⟨0, 127, -40, 0, 0⟩),
       (tick_default, ⟨0, -100, -30, 0, 0⟩), (tick_default, ⟨0, 90, 90, 0, 0⟩)] +
      (run_reports build_default hooks_default state_drag
        [(tick_default, ⟨0, 127, 3, 0, 0⟩), (tick_default, ⟨0, 127, -40, 0, 0⟩),
         (tick_default, ⟨0, -100, -30, 0, 0⟩),
         (tick_default, ⟨0, 90, 90, 0, 0⟩)]).1._dragscroll_accumulator_x =
      sum_add_x [(tick_default, ⟨0, 127, 3, 0, 0⟩), (tick_default, ⟨0, 127, -40, 0, 0⟩),
        (tick_default, ⟨0, -100, -30, 0, 0⟩), (tick_default, ⟨0, 90, 90, 0, 0⟩)] := by
  have h := (drag_scroll_conservation build_default hooks_default state_drag
    [(tick_default, ⟨0, 127, 3, 0, 0⟩), (tick_default, ⟨0, 127, -40, 0, 0⟩),
     (tick_default, ⟨0, -100, -30, 0, 0⟩), (tick_default, ⟨0, 90, 90, 0, 0⟩)]
    rfl (by decide)).1 rfl
  exact ⟨by decide, by decide, h.1⟩

/-- C7. Drag-scroll consumes all pointer motion: in drag-scroll mode the report handed on to
`pointing_device_task_user` has `x = 0` and `y = 0`, whatever the report and the state. -/
theorem drag_scroll_consumes_motion (b : Build) (hk : Hooks) (t : Tick) (s : State)
    (r : report_mouse_t) (hds : s.is_drag_scroll = true) :
    (pointing_device_task_kb_body b hk t s r).2.x = 0 ∧
    (pointing_device_task_kb_body b hk t s r).2.y = 0 ∧
    (pointing_device_task_kb b hk t s r).2 =
      hk.pointing_device_task_user (pointing_device_task_kb_body b hk t s r).2 := by
  rw [body_drag b hk t s r hds, drag_scroll_eq]
  refine ⟨rfl, rfl, ?_⟩
  unfold pointing_device_task_kb
  rw [body_drag b hk t s r hds, drag_scroll_eq]

/-- C7 at a report with `x = 100, y = -50`: the report that is handed on and, with the
default hook, returned has no motion. -/
theorem drag_scroll_consumes_motion_witness :
    state_drag.is_drag_scroll = true ∧
    (pointing_device_task_kb_body build_default hooks_default tick_default state_drag
      ⟨0, 100, -50, 0, 0⟩).2.x = 0 ∧
    (pointing_device_task_kb_body build_default hooks_default tick_default state_drag
      ⟨0, 100, -50, 0, 0⟩).2.y = 0 :=
  ⟨rfl,
   (drag_scroll_consumes_motion build_default hooks_default tick_default state_drag
     ⟨0, 100, -50, 0, 0⟩ rfl).1,
   (drag_scroll_consumes_motion build_default hooks_default tick_default state_drag
     ⟨0, 100, -50, 0, 0⟩ rfl).2.1⟩

/-- C8. Identity outside drag-scroll mode: with `is_drag_scroll` false the report is handed
on to `pointing_device_task_user` unchanged (`x`, `y`, `h`, `v` and the buttons) and both
accumulators, like the rest of the state, stay as they were. -/
theorem no_drag_scroll_identity (b : Build) (hk : Hooks) (t : Tick) (s : State)
    (r : report_mouse_t) (hds : s.is_drag_scroll = false) :
    (pointing_device_task_kb_body b hk t s r).2 = r ∧
    (pointing_device_task_kb b hk t s r).2 = hk.pointing_device_task_user r ∧
    (pointing_device_task_kb b hk t s r).1._dragscroll_accumulator_x =
      s._dragscroll_accumulator_x ∧
    (pointing_device_task_kb b hk t s r).1._dragscroll_accumulator_y =
      s._dragscroll_accumulator_y ∧
    (pointing_device_task_kb b hk t s r).1 = s := by
  have h : pointing_device_task_kb b hk t s r = (s, hk.pointing_device_task_user r) := by
    unfold pointing_device_task_kb
    rw [body_no_drag b hk t s r hds]
  rw [body_no_drag b hk t s r hds, h]
  exact ⟨rfl, rfl, rfl, rfl, rfl⟩

/-- C8 at the start-up state with accumulators `(150, -70)` and a report with
`x = 100, y = -50, v = 2, h = -1`. -/
theorem no_drag_scroll_identity_witness :
    state_start.is_drag_scroll = false ∧
    (pointing_device_task_kb_body build_default hooks_default tick_default
      { state_start with _dragscroll_accumulator_x := 150, _dragscroll_accumulator_y := -70 }
      ⟨1, 100, -50, 2, -1⟩).2 = ⟨1, 100, -50, 2, -1⟩ ∧
    (pointing_device_task_kb build_default hooks_default tick_default
      { state_start with _dragscroll_accumulator_x := 150, _dragscroll_accumulator_y := -70 }
      ⟨1, 100, -50, 2, -1⟩).1._dragscroll_accumulator_x = 150 :=
  ⟨rfl,
   (no_drag_scroll_identity build_default hooks_default tick_default
     { state_start with _dragscroll_accumulator_x := 150, _dragscroll_accumulator_y := -70 }
     ⟨1, 100, -50, 2, -1⟩ rfl).1,
   (no_drag_scroll_identity build_default hooks_default tick_default
     { state_start with _dragscroll_accumulator_x := 150, _dragscroll_accumulator_y := -70 }
     ⟨1, 100, -50, 2, -1⟩ rfl).2.2.1⟩

/-! ## The DPI configuration -/

/-- The store of an index below 256 is read back, and the other bytes of `raw` stay. -/
theorem set_dpi_config_spec (c : keyboard_config_t) (v : Nat) (hv : v < 256) :
    (c.set_dpi_config v).dpi_config = v ∧ (c.set_dpi_config v).raw / 256 = c.raw / 256 := by
  unfold keyboard_config_t.set_dpi_config keyboard_config_t.dpi_config
  simp only []
  omega

/-- The index after a press that `process_record_user` lets through. -/
theorem dpi_config_press_step (b : Build) (hk : Hooks) (now : Nat) (key : keypos_t) (s : State)
    (hkc : b.DPI_CONFIG ≠ b.DRAG_SCROLL)
    (huser : ∀ record, hk.process_record_user b.DPI_CONFIG record = true) :
    (dpi_config_press b hk now key s).keyboard_config.dpi_config =
      (s.keyboard_config.dpi_config + 1) % 3 := by
  have hlt : (s.keyboard_config.dpi_config + 1) % 3 < 3 := Nat.mod_lt _ (by decide)
  have hset := set_dpi_config_spec s.keyboard_config ((s.keyboard_config.dpi_config + 1) % 3)
    (by omega)
  unfold dpi_config_press process_record_kb
  by_cases hpos : key.col = 1 ∧ key.row = 0 <;>
    simp [huser, hkc, hpos, eeconfig_update_kb, pointing_device_set_cpi, dpi_array,
      PLOOPY_DPI_OPTIONS, DPI_OPTION_SIZE, hset.1]

/-- C9. DPI cycling: a `DPI_CONFIG` press that `process_record_user` lets through sets the
dpi index to `(old index + 1) mod 3`, keeps the other bytes of the raw configuration, writes
the raw configuration with the new index to persistent storage, and gives
`dpi_array[new index]` of `{1200, 1600, 2400}` to the sensor; a `DPI_CONFIG` release leaves
the configuration, the storage and the sensor CPI as they were, and the whole state when the
key is not at column 1, row 0. -/
theorem dpi_config_press_cycles (b : Build) (hk : Hooks) (now : Nat) (record : keyrecord_t)
    (s : State) (hkc : b.DPI_CONFIG ≠ b.DRAG_SCROLL)
    (huser : hk.process_record_user b.DPI_CONFIG record = true) :
    (record.event.pressed = true →
      (process_record_kb b hk now b.DPI_CONFIG record s).2 = true ∧
      (process_record_kb b hk now b.DPI_CONFIG record s).1.keyboard_config.dpi_config =
        (s.keyboard_config.dpi_config + 1) % 3 ∧
      (process_record_kb b hk now b.DPI_CONFIG record s).1.keyboard_config.raw / 256 =
        s.keyboard_config.raw / 256 ∧
      (process_record_kb b hk now b.DPI_CONFIG record s).1.eeprom_kb =
        (process_record_kb b hk now b.DPI_CONFIG record s).1.keyboard_config.raw ∧
      (process_record_kb b hk now b.DPI_CONFIG record s).1.eeprom_writes =
        (process_record_kb b hk now b.DPI_CONFIG record s).1.keyboard_config.raw ::
          s.eeprom_writes ∧
      (process_record_kb b hk now b.DPI_CONFIG record s).1.cpi_calls =
        ([1200, 1600, 2400] : List Nat)[(s.keyboard_config.dpi_config + 1) % 3]? ::
          s.cpi_calls ∧
      (([1200, 1600, 2400] : List Nat)[(s.keyboard_config.dpi_config + 1) % 3]?).isSome = true ∧
      (process_record_kb b hk now b.DPI_CONFIG record s).1.is_drag_scroll = s.is_drag_scroll) ∧
    (record.event.pressed = false →
      (process_record_kb b hk now b.DPI_CONFIG record s).1.keyboard_config = s.keyboard_config ∧
      (process_record_kb b hk now b.DPI_CONFIG record s).1.eeprom_kb = s.eeprom_kb ∧
      (process_record_kb b hk now b.DPI_CONFIG record s).1.eeprom_writes = s.eeprom_writes ∧
      (process_record_kb b hk now b.DPI_CONFIG record s).1.cpi_calls = s.cpi_calls ∧
      (process_record_kb b hk now b.DPI_CONFIG record s).1.is_drag_scroll = s.is_drag_scroll ∧
      (¬(record.event.key.col = 1 ∧ record.event.key.row = 0) →
        (process_record_kb b hk now b.DPI_CONFIG record s).1 = s)) := by
  have hlt : (s.keyboard_config.dpi_config + 1) % 3 < 3 := Nat.mod_lt _ (by decide)
  have hset := set_dpi_config_spec s.keyboard_config ((s.keyboard_config.dpi_config + 1) % 3)
    (by omega)
  constructor
  · intro hp
    unfold process_record_kb
    by_cases hpos : record.event.key.col = 1 ∧ record.event.key.row = 0 <;>
      simp [huser, hkc, hp, hpos, eeconfig_update_kb, pointing_device_set_cpi, dpi_array,
        PLOOPY_DPI_OPTIONS, DPI_OPTION_SIZE, hset.1, hset.2] <;>
      interval_cases h3 : (s.keyboard_config.dpi_config + 1) % 3 <;> simp
  · intro hp
    unfold process_record_kb
    by_cases hpos : record.event.key.col = 1 ∧ record.event.key.row = 0 <;>
      simp [huser, hkc, hp, hpos]

/-- C9, the scenario of the spec: from index 0 one press gives index 1 with 1600 applied,
and two more presses give index 0 with 1200 applied. -/
theorem dpi_config_press_cycles_witness :
    build_default.DPI_CONFIG ≠ build_default.DRAG_SCROLL ∧
    ({ state_start with keyboard_config := ⟨0⟩ } : State).keyboard_config.dpi_config = 0 ∧
    (dpi_config_press build_default hooks_default 1000 ⟨0, 1⟩
      { state_start with keyboard_config := ⟨0⟩ }).keyboard_config.dpi_config = 1 ∧
    (dpi_config_press build_default hooks_default 1000 ⟨0, 1⟩
      { state_start with keyboard_config := ⟨0⟩ }).cpi_calls = [some 1600] ∧
    (dpi_config_press build_default hooks_default 1000 ⟨0, 1⟩
      { state_start with keyboard_config := ⟨0⟩ }).eeprom_writes = [1] ∧
    (dpi_config_press build_default hooks_default 1002 ⟨0, 1⟩
      (dpi_config_press build_default hooks_default 1001 ⟨0, 1⟩
        (dpi_config_press build_default hooks_default 1000 ⟨0, 1⟩
          { state_start with keyboard_config := ⟨0⟩ }))).keyboard_config.dpi_config = 0 ∧
    (dpi_config_press build_default hooks_default 1002 ⟨0, 1⟩
      (dpi_config_press build_default hooks_default 1001 ⟨0, 1⟩
        (dpi_config_press build_default hooks_default 1000 ⟨0, 1⟩
          { state_start with keyboard_config := ⟨0⟩ }))).cpi_calls =
      [some 1200, some 2400, some 1600] := by
  have h1 := (dpi_config_press_cycles build_default hooks_default 1000 ⟨⟨⟨0, 1⟩, true⟩⟩
    { state_start with keyboard_config := ⟨0⟩ } (by decide) rfl).1 rfl
  have h3 := (dpi_config_press_cycles build_default hooks_default 1002 ⟨⟨⟨0, 1⟩, true⟩⟩
    (dpi_config_press build_default hooks_default 1001 ⟨0, 1⟩
      (dpi_config_press build_default hooks_default 1000 ⟨0, 1⟩
        { state_start with keyboard_config := ⟨0⟩ })) (by decide) rfl).1 rfl
  exact ⟨by decide, rfl, h1.2.1.trans (by decide), h1.2.2.2.2.2.1.trans (by decide),
    h1.2.2.2.2.1.trans (by decide), h3.2.1.trans (by decide),
    h3.2.2.2.2.2.1.trans (by decide)⟩

/-- Three presses return an index below the table length to itself. -/
theorem dpi_config_press_thrice (b : Build) (hk : Hooks) (n1 n2 n3 : Nat) (k1 k2 k3 : keypos_t)
    (s : State) (hkc : b.DPI_CONFIG ≠ b.DRAG_SCROLL)
    (huser : ∀ record, hk.process_record_user b.DPI_CONFIG record = true)
    (hi : s.keyboard_config.dpi_config < DPI_OPTION_SIZE) :
    (dpi_config_press b hk n3 k3 (dpi_config_press b hk n2 k2
      (dpi_config_press b hk n1 k1 s))).keyboard_config.dpi_config =
      s.keyboard_config.dpi_config := by
  have h1 := (dpi_config_press_step b hk n1 k1 s hkc huser)
  have h2 := (dpi_config_press_step b hk n2 k2 (dpi_config_press b hk n1 k1 s) hkc huser)
  have h3 := (dpi_config_press_step b hk n3 k3
    (dpi_config_press b hk n2 k2 (dpi_config_press b hk n1 k1 s)) hkc huser)
  have h4 : s.keyboard_config.dpi_config < 3 := hi
  rw [h3, h2, h1]
  omega

/-- C10. The guard of `matrix_init_kb` is `dpi_config > DPI_OPTION_SIZE`: a stored index 3 is
kept although `dpi_array` has no entry 3, and from index 3 three presses of `DPI_CONFIG` end
at index 0, not at 3; a stored index 4 is replaced by the default. -/
theorem dpi_cycle_fails_from_index_three :
    (matrix_init_kb { state_start with eeprom_kb := 3 }).keyboard_config.dpi_config = 3 ∧
    dpi_array[3]? = none ∧
    (dpi_config_press build_default hooks_default 1002 ⟨0, 1⟩
      (dpi_config_press build_default hooks_default 1001 ⟨0, 1⟩
        (dpi_config_press build_default hooks_default 1000 ⟨0, 1⟩
          (matrix_init_kb { state_start with eeprom_kb := 3 })))).keyboard_config.dpi_config
      = 0 ∧
    (matrix_init_kb { state_start with eeprom_kb := 4 }).keyboard_config.dpi_config = 1 := by
  decide

/-- The load of the configuration, case by case on the stored index: above 3 the default is
stored in the index and the configuration is written; up to 3, 3 included, the stored word
is kept and nothing is written. -/
theorem matrix_init_kb_cases (s : State) :
    (s.eeprom_kb % 256 > 3 →
      (matrix_init_kb s).keyboard_config.dpi_config = PLOOPY_DPI_DEFAULT ∧
      (matrix_init_kb s).eeprom_writes =
        (matrix_init_kb s).keyboard_config.raw :: s.eeprom_writes ∧
      (matrix_init_kb s).eeprom_kb = (matrix_init_kb s).keyboard_config.raw) ∧
    (s.eeprom_kb % 256 ≤ 3 →
      (matrix_init_kb s).keyboard_config.raw = s.eeprom_kb ∧
      (matrix_init_kb s).keyboard_config.dpi_config = s.eeprom_kb % 256 ∧
      (matrix_init_kb s).eeprom_writes = s.eeprom_writes ∧
      (matrix_init_kb s).eeprom_kb = s.eeprom_kb) := by
  have hset := set_dpi_config_spec ⟨s.eeprom_kb⟩ PLOOPY_DPI_DEFAULT (by decide)
  constructor
  · intro h
    have hc : (⟨s.eeprom_kb⟩ : keyboard_config_t).dpi_config > DPI_OPTION_SIZE := h
    unfold matrix_init_kb eeconfig_init_kb
    simp [eeconfig_read_kb, eeconfig_update_kb, hc, hset.1]
  · intro h
    have hc : ¬ DPI_OPTION_SIZE < s.eeprom_kb % 256 := Nat.not_lt.mpr h
    unfold matrix_init_kb
    simp [eeconfig_read_kb, hc, keyboard_config_t.dpi_config]

/-- C11. The guard of `matrix_init_kb` is `dpi_config > DPI_OPTION_SIZE`: with the index 3
in persistent storage the index after the load is 3, which is not below the table length,
nothing is written, and the lookups of `pointing_device_init_kb` and
`keyboard_post_init_kb` read `dpi_array[3]`, outside the table; with the index 4 the default
1 is stored and written, and with the index 2 the index is kept and nothing is written. -/
theorem matrix_init_kb_keeps_index_three :
    (matrix_init_kb { state_start with eeprom_kb := 3 }).keyboard_config.dpi_config = 3 ∧
    DPI_OPTION_SIZE = 3 ∧
    (matrix_init_kb { state_start with eeprom_kb := 3 }).eeprom_writes = [] ∧
    (pointing_device_init_kb (matrix_init_kb { state_start with eeprom_kb := 3 })).cpi_calls
      = [none] ∧
    (keyboard_post_init_kb (matrix_init_kb { state_start with eeprom_kb := 3 })).cpi_calls
      = [none] ∧
    (matrix_init_kb { state_start with eeprom_kb := 4 }).keyboard_config.dpi_config = 1 ∧
    (matrix_init_kb { state_start with eeprom_kb := 4 }).eeprom_writes = [1] ∧
    (matrix_init_kb { state_start with eeprom_kb := 2 }).keyboard_config.dpi_config = 2 ∧
    (matrix_init_kb { state_start with eeprom_kb := 2 }).eeprom_writes = [] := by
  decide

/-! ## The drag-scroll key -/

/-- A `DRAG_SCROLL` event that `process_record_user` lets through flips `is_drag_scroll` and
leaves the configuration alone. -/
theorem drag_scroll_key_flips (b : Build) (hk : Hooks) (now : Nat) (record : keyrecord_t)
    (s : State) (huser : hk.process_record_user b.DRAG_SCROLL record = true) :
    (process_record_kb b hk now b.DRAG_SCROLL record s).1.is_drag_scroll =
      !s.is_drag_scroll := by
  unfold process_record_kb
  simp only [huser]
  by_cases hpos : record.event.key.col = 1 ∧ record.event.key.row = 0 <;>
    by_cases hdpi : b.DRAG_SCROLL = b.DPI_CONFIG ∧ record.event.pressed = true <;>
    cases hf : b.PLOOPY_DRAGSCROLL_FIXED <;>
    simp [huser, hpos, hdpi, hf, PLOOPY_DRAGSCROLL_MOMENTARY, eeconfig_update_kb,
      pointing_device_set_cpi]

/-- Along events whose pressed flags alternate from the state of the key, the drag-scroll
state after the sequence is the pressed flag of the last event. -/
theorem drag_scroll_events_alternating (b : Build) (hk : Hooks)
    (huser : ∀ record, hk.process_record_user b.DRAG_SCROLL record = true)
    (l : List (Nat × keyrecord_t)) :
    ∀ s : State, alternates s.is_drag_scroll l = true →
      (drag_scroll_events b hk s l).is_drag_scroll = last_pressed s.is_drag_scroll l := by
  induction l with
  | nil => intro s _; rfl
  | cons p l ih =>
    intro s h
    obtain ⟨now, record⟩ := p
    simp only [alternates, Bool.and_eq_true, bne_iff_ne, ne_eq] at h
    have h1 := drag_scroll_key_flips b hk now record s (huser record)
    have h2 : (process_record_kb b hk now b.DRAG_SCROLL record s).1.is_drag_scroll =
        record.event.pressed := by
      rw [h1]
      cases hp : record.event.pressed <;> cases hd : s.is_drag_scroll <;> simp_all
    have h3 := ih (process_record_kb b hk now b.DRAG_SCROLL record s).1 (by rw [h2]; exact h.2)
    simp only [drag_scroll_events, last_pressed]
    rw [h3, h2]

/-- C12, as amended. Momentary drag-scroll: every `DRAG_SCROLL` key event handled by
`process_record_kb` flips `is_drag_scroll`, so afterwards `is_drag_scroll` equals the
pressed flag of the event whenever it was the negation of that flag before; and along any
sequence of handled `DRAG_SCROLL` events whose pressed flags alternate, starting from the
negation of `is_drag_scroll`, the state after the sequence is the pressed flag of the last
event. -/
theorem drag_scroll_momentary_toggle (b : Build) (hk : Hooks)
    (huser : ∀ record, hk.process_record_user b.DRAG_SCROLL record = true) :
    (∀ (now : Nat) (record : keyrecord_t) (s : State),
      (process_record_kb b hk now b.DRAG_SCROLL record s).1.is_drag_scroll =
        !s.is_drag_scroll ∧
      (s.is_drag_scroll = !record.event.pressed →
        (process_record_kb b hk now b.DRAG_SCROLL record s).1.is_drag_scroll =
          record.event.pressed)) ∧
    (∀ (s : State) (l : List (Nat × keyrecord_t)), alternates s.is_drag_scroll l = true →
      (drag_scroll_events b hk s l).is_drag_scroll = last_pressed s.is_drag_scroll l) := by
  constructor
  · intro now record s
    have h := drag_scroll_key_flips b hk now record s (huser record)
    refine ⟨h, fun hs => ?_⟩
    rw [h, hs, Bool.not_not]
  · intro s l h
    exact drag_scroll_events_alternating b hk huser l s h

/-- C12 at the start-up state: a press, a release and a press of the drag-scroll key leave
drag-scroll on after the first and the third event and off after the second. -/
theorem drag_scroll_momentary_toggle_witness :
    state_start.is_drag_scroll = false ∧
    (drag_scroll_events build_default hooks_default state_start
      [(1000, ⟨⟨⟨0, 2⟩, true⟩⟩)]).is_drag_scroll = true ∧
    (drag_scroll_events build_default hooks_default state_start
      [(1000, ⟨⟨⟨0, 2⟩, true⟩⟩), (1200, ⟨⟨⟨0, 2⟩, false⟩⟩)]).is_drag_scroll = false ∧
    (drag_scroll_events build_default hooks_default state_start
      [(1000, ⟨⟨⟨0, 2⟩, true⟩⟩), (1200, ⟨⟨⟨0, 2⟩, false⟩⟩),
       (1500, ⟨⟨⟨0, 2⟩, true⟩⟩)]).is_drag_scroll = true := by
  have h := (drag_scroll_momentary_toggle build_default hooks_default (fun _ => rfl)).2
    state_start
  exact ⟨rfl, (h [(1000, ⟨⟨⟨0, 2⟩, true⟩⟩)] (by decide)).trans (by decide),
    (h [(1000, ⟨⟨⟨0, 2⟩, true⟩⟩), (1200, ⟨⟨⟨0, 2⟩, false⟩⟩)] (by decide)).trans (by decide),
    (h [(1000, ⟨⟨⟨0, 2⟩, true⟩⟩), (1200, ⟨⟨⟨0, 2⟩, false⟩⟩), (1500, ⟨⟨⟨0, 2⟩, true⟩⟩)]
      (by decide)).trans (by decide)⟩

/-- C12 as stated fails: with two keys that carry `DRAG_SCROLL`, at rows 2 and 3 of column
0, pressing the first and then the second leaves `is_drag_scroll` false after a handled
event whose pressed flag is true; the same holds for one press from a state in which
drag-scroll is on. -/
theorem drag_scroll_press_switches_off :
    (process_record_kb build_default hooks_default 1100 build_default.DRAG_SCROLL
      ⟨⟨⟨0, 3⟩, true⟩⟩
      (process_record_kb build_default hooks_default 1000 build_default.DRAG_SCROLL
        ⟨⟨⟨0, 2⟩, true⟩⟩ state_start).1).2 = true ∧
    (process_record_kb build_default hooks_default 1100 build_default.DRAG_SCROLL
      ⟨⟨⟨0, 3⟩, true⟩⟩
      (process_record_kb build_default hooks_default 1000 build_default.DRAG_SCROLL
        ⟨⟨⟨0, 2⟩, true⟩⟩ state_start).1).1.is_drag_scroll = false ∧
    (process_record_kb build_default hooks_default 1000 build_default.DRAG_SCROLL
      ⟨⟨⟨0, 2⟩, true⟩⟩ state_drag).1.is_drag_scroll = false := by
  decide

/-- C13. Effective DPI on a drag-scroll change, in the build without
`PLOOPY_DRAGSCROLL_FIXED`: for an index `i` below the table length, a handled
`DRAG_SCROLL` event gives the sensor `dpi_array[i]` scaled by 0.75 (900, 1200, 1800) when the
resulting `is_drag_scroll` is true and `dpi_array[i]` itself (1200, 1600, 2400) when it is
false; the configuration and its index are unchanged. -/
theorem drag_scroll_effective_dpi (b : Build) (hk : Hooks) (now : Nat) (record : keyrecord_t)
    (s : State) (hfixed : b.PLOOPY_DRAGSCROLL_FIXED = false)
    (hkc : b.DPI_CONFIG ≠ b.DRAG_SCROLL)
    (huser : hk.process_record_user b.DRAG_SCROLL record = true)
    (hi : s.keyboard_config.dpi_config < DPI_OPTION_SIZE) :
    ((process_record_kb b hk now b.DRAG_SCROLL record s).1.is_drag_scroll = true →
      (process_record_kb b hk now b.DRAG_SCROLL record s).1.cpi_calls =
        (dpi_array[s.keyboard_config.dpi_config]?).map PLOOPY_DRAGSCROLL_MULTIPLIER ::
          s.cpi_calls ∧
      (dpi_array[s.keyboard_config.dpi_config]?).map PLOOPY_DRAGSCROLL_MULTIPLIER =
        ([900, 1200, 1800] : List Nat)[s.keyboard_config.dpi_config]?) ∧
    ((process_record_kb b hk now b.DRAG_SCROLL record s).1.is_drag_scroll = false →
      (process_record_kb b hk now b.DRAG_SCROLL record s).1.cpi_calls =
        dpi_array[s.keyboard_config.dpi_config]? :: s.cpi_calls ∧
      dpi_array[s.keyboard_config.dpi_config]? =
        ([1200, 1600, 2400] : List Nat)[s.keyboard_config.dpi_config]?) ∧
    (dpi_array[s.keyboard_config.dpi_config]?).isSome = true ∧
    (process_record_kb b hk now b.DRAG_SCROLL record s).1.keyboard_config =
      s.keyboard_config := by
  have hne : ¬ b.DRAG_SCROLL = b.DPI_CONFIG := fun h => hkc h.symm
  have h3 : s.keyboard_config.dpi_config < 3 := hi
  have htab : (dpi_array[s.keyboard_config.dpi_config]?).map PLOOPY_DRAGSCROLL_MULTIPLIER =
        ([900, 1200, 1800] : List Nat)[s.keyboard_config.dpi_config]? ∧
      (dpi_array[s.keyboard_config.dpi_config]?).isSome = true := by
    interval_cases s.keyboard_config.dpi_config <;> decide
  unfold process_record_kb
  by_cases hpos : record.event.key.col = 1 ∧ record.event.key.row = 0 <;>
    cases hd : s.is_drag_scroll <;>
    simp [huser, hne, hfixed, hpos, hd, PLOOPY_DRAGSCROLL_MOMENTARY, pointing_device_set_cpi,
      htab.1, htab.2] <;>
    rfl

/-- C13 at the default index 1: a press of the drag-scroll key gives the sensor 1200 and the
release gives it 1600; the index stays 1. -/
theorem drag_scroll_effective_dpi_witness :
    state_start.keyboard_config.dpi_config = 1 ∧
    (process_record_kb build_default hooks_default 1000 build_default.DRAG_SCROLL
      ⟨⟨⟨0, 2⟩, true⟩⟩ state_start).1.is_drag_scroll = true ∧
    (process_record_kb build_default hooks_default 1000 build_default.DRAG_SCROLL
      ⟨⟨⟨0, 2⟩, true⟩⟩ state_start).1.cpi_calls = [some 1200] ∧
    (process_record_kb build_default hooks_default 1200 build_default.DRAG_SCROLL
      ⟨⟨⟨0, 2⟩, false⟩⟩ state_drag).1.is_drag_scroll = false ∧
    (process_record_kb build_default hooks_default 1200 build_default.DRAG_SCROLL
      ⟨⟨⟨0, 2⟩, false⟩⟩ state_drag).1.cpi_calls = [some 1600] := by
  have h1 := drag_scroll_effective_dpi build_default hooks_default 1000 ⟨⟨⟨0, 2⟩, true⟩⟩
    state_start rfl (by decide) rfl (by decide)
  have h2 := drag_scroll_effective_dpi build_default hooks_default 1200 ⟨⟨⟨0, 2⟩, false⟩⟩
    state_drag rfl (by decide) rfl (by decide)
  exact ⟨rfl, by decide, (h1.1 (by decide)).1.trans (by decide), by decide,
    (h2.2.1 (by decide)).1.trans (by decide)⟩

/-! ## The scroll wheel -/

/-- C14. Mute window: whenever the 16-bit time elapsed since `lastMidClick` is below
`SCROLL_BUTT_DEBOUNCE` (100 ms), `process_wheel` returns at its first test: the report of
the driver, the reports sent, the keys tapped and `lastScroll` are as before, like the rest
of the state, whatever the encoder channels and the decoder give. -/
theorem process_wheel_mute_window (b : Build) (hk : Hooks) (t : Tick) (s : State)
    (h : timer_elapsed t.now s.lastMidClick < 100) :
    SCROLL_BUTT_DEBOUNCE = 100 ∧
    (process_wheel b hk t s).mouse_report = s.mouse_report ∧
    (process_wheel b hk t s).sent = s.sent ∧
    (process_wheel b hk t s).tapped = s.tapped ∧
    (process_wheel b hk t s).lastScroll = s.lastScroll ∧
    process_wheel b hk t s = s := by
  have h1 : process_wheel b hk t s = s := by
    have h0 : timer_elapsed t.now s.lastMidClick < SCROLL_BUTT_DEBOUNCE := h
    unfold process_wheel
    rw [if_pos h0]
  rw [h1]
  exact ⟨rfl, rfl, rfl, rfl, rfl, rfl⟩

/-- C14 at 50 ms after a click at time 950, and at 46 ms after a click at time 65500 when the
timer has wrapped to 10; the decoder reports a rotation in both. -/
theorem process_wheel_mute_window_witness :
    timer_elapsed 1000 950 = 50 ∧
    process_wheel build_default ⟨fun _ _ => true, fun _ _ => true, fun r => r, fun _ _ => 1⟩
      ⟨1000, 800, 20⟩ { state_start with lastMidClick := 950 } =
      { state_start with lastMidClick := 950 } ∧
    timer_elapsed 10 65500 = 46 ∧
    (process_wheel build_default ⟨fun _ _ => true, fun _ _ => true, fun r => r, fun _ _ => 1⟩
      ⟨10, 800, 20⟩ { state_start with lastMidClick := 65500 }).sent = [] :=
  ⟨by decide,
   (process_wheel_mute_window build_default
     ⟨fun _ _ => true, fun _ _ => true, fun r => r, fun _ _ => 1⟩ ⟨1000, 800, 20⟩
     { state_start with lastMidClick := 950 } (by decide)).2.2.2.2.2,
   by decide,
   (process_wheel_mute_window build_default
     ⟨fun _ _ => true, fun _ _ => true, fun r => r, fun _ _ => 1⟩ ⟨10, 800, 20⟩
     { state_start with lastMidClick := 65500 } (by decide)).2.2.1⟩

/-- C15. Scroll wheel disabled: in this build (`PLOOPY_DISABLE_SCROLLWHEEL` defined) every
path of `process_wheel` returns before line 122, so for every state, time, channel readings,
decoder and hooks the whole state is unchanged: `lastScroll` and `lastMidClick` are not
written, no report is changed or sent, no key is tapped. -/
theorem process_wheel_disabled (b : Build) (hk : Hooks) (t : Tick) (s : State) :
    PLOOPY_DISABLE_SCROLLWHEEL = true ∧
    process_wheel b hk t s = s ∧
    (process_wheel b hk t s).lastScroll = s.lastScroll ∧
    (process_wheel b hk t s).lastMidClick = s.lastMidClick ∧
    (process_wheel b hk t s).mouse_report = s.mouse_report ∧
    (process_wheel b hk t s).sent = s.sent ∧
    (process_wheel b hk t s).tapped = s.tapped := by
  rw [process_wheel_eq]
  exact ⟨rfl, rfl, rfl, rfl, rfl, rfl, rfl⟩

/-- C16, as amended. Scroll event in direct-report mode (`MOUSEKEY_ENABLE` not defined): when
`encoder_update_user` returns false, `encoder_update_kb` returns false and leaves the state,
so nothing is sent; otherwise it returns true, and the report it stores and sends is the
current report with `v` set to 1 for clockwise and to -1 for counter-clockwise, all other
fields and the rest of the state unchanged; this is `v_current + 1` or `v_current - 1` when
`v_current` is 0. -/
theorem encoder_update_kb_direct_report (b : Build) (hk : Hooks) (index : Nat)
    (clockwise : Bool) (s : State) (hmk : b.MOUSEKEY_ENABLE = false) :
    (hk.encoder_update_user index clockwise = false →
      encoder_update_kb b hk index clockwise s = (s, false)) ∧
    (hk.encoder_update_user index clockwise = true →
      (encoder_update_kb b hk index clockwise s).2 = true ∧
      (encoder_update_kb b hk index clockwise s).1 =
        { s with
          mouse_report := { s.mouse_report with v := if clockwise then 1 else -1 }
          sent := { s.mouse_report with v := if clockwise then 1 else -1 } :: s.sent } ∧
      (s.mouse_report.v = 0 →
        (encoder_update_kb b hk index clockwise s).1.sent =
          { s.mouse_report with
            v := s.mouse_report.v + (if clockwise then 1 else -1) } :: s.sent)) := by
  constructor
  · intro h
    unfold encoder_update_kb
    simp [h]
  · intro h
    have h1 : encoder_update_kb b hk index clockwise s =
        ({ s with
            mouse_report := { s.mouse_report with v := if clockwise then 1 else -1 }
            sent := { s.mouse_report with v := if clockwise then 1 else -1 } :: s.sent },
          true) := by
      unfold encoder_update_kb
      simp [h, hmk, pointing_device_get_report, pointing_device_set_report,
        pointing_device_send]
    rw [h1]
    refine ⟨rfl, rfl, fun hv => ?_⟩
    simp [hv]

/-- C16 on a resting report: a clockwise step sends `v = 1`, a counter-clockwise step sends
`v = -1`, and a step that `encoder_update_user` refuses sends nothing. -/
theorem encoder_update_kb_direct_report_witness :
    build_default.MOUSEKEY_ENABLE = false ∧
    (encoder_update_kb build_default hooks_default 0 true state_start).2 = true ∧
    (encoder_update_kb build_default hooks_default 0 true state_start).1.sent =
      [⟨0, 0, 0, 1, 0⟩] ∧
    (encoder_update_kb build_default hooks_default 0 false state_start).1.sent =
      [⟨0, 0, 0, -1, 0⟩] ∧
    encoder_update_kb build_default
      ⟨fun _ _ => false, fun _ _ => true, fun r => r, fun _ _ => 0⟩ 0 true state_start =
      (state_start, false) := by
  have h1 := (encoder_update_kb_direct_report build_default hooks_default 0 true state_start
    rfl).2 rfl
  have h2 := (encoder_update_kb_direct_report build_default hooks_default 0 false state_start
    rfl).2 rfl
  have h3 := (encoder_update_kb_direct_report build_default
    ⟨fun _ _ => false, fun _ _ => true, fun r => r, fun _ _ => 0⟩ 0 true state_start rfl).1 rfl
  exact ⟨rfl, h1.1, (h1.2.2 rfl).trans (by decide), (h2.2.2 rfl).trans (by decide), h3⟩

/-- C16 as stated fails: with `v = 5` in the current report a clockwise step sends `v = 1`,
not `v = 6`, and a counter-clockwise step sends `v = -1`, not `v = 4`. -/
theorem encoder_update_kb_overwrites_v :
    (encoder_update_kb build_default hooks_default 0 true
      { state_start with mouse_report := ⟨0, 0, 0, 5, 0⟩ }).2 = true ∧
    (encoder_update_kb build_default hooks_default 0 true
      { state_start with mouse_report := ⟨0, 0, 0, 5, 0⟩ }).1.sent = [⟨0, 0, 0, 1, 0⟩] ∧
    (encoder_update_kb build_default hooks_default 0 true
      { state_start with mouse_report := ⟨0, 0, 0, 5, 0⟩ }).1.sent ≠ [⟨0, 0, 0, 5 + 1, 0⟩] ∧
    (encoder_update_kb build_default hooks_default 0 false
      { state_start with mouse_report := ⟨0, 0, 0, 5, 0⟩ }).1.sent = [⟨0, 0, 0, -1, 0⟩] := by
  decide

/-! ## Bounds and frames -/

/-- With remainders inside their bounds and 8-bit displacements, `div_x` is between -1 and 1
and `div_y` between -2 and 2. -/
theorem drag_div_bounds (s : State) (r : report_mouse_t) (h : acc_inv s)
    (hx : fits_int8 r.x) (hy : fits_int8 r.y) :
    (-1 ≤ drag_div_x s r ∧ drag_div_x s r ≤ 1) ∧ (-2 ≤ drag_div_y s r ∧ drag_div_y s r ≤ 2) := by
  obtain ⟨h1, h2⟩ := h
  unfold PLOOPY_DRAGSCROLL_DENOMINATOR_X at h1
  unfold PLOOPY_DRAGSCROLL_DENOMINATOR_Y at h2
  rw [abs_lt] at h1 h2
  unfold fits_int8 at hx hy
  have hrx := reset_x (drag_acc_x s r) (wrap_int_fits _)
  have hry := reset_y (drag_acc_y s r) (wrap_int_fits _)
  have hax : -400 < drag_acc_x s r ∧ drag_acc_x s r < 400 := by
    unfold drag_acc_x int_add wrap_int
    rcases (rubberband_cases r).1 with hc | hc <;> omega
  have hay : -300 < drag_acc_y s r ∧ drag_acc_y s r < 300 := by
    unfold drag_acc_y int_sub wrap_int
    rcases (rubberband_cases r).2 with hc | hc <;> omega
  unfold drag_div_x drag_div_y PLOOPY_DRAGSCROLL_DENOMINATOR_X PLOOPY_DRAGSCROLL_DENOMINATOR_Y
  rw [hrx.1, hry.1]
  exact ⟨hrx.2.2.2.2.2.2.2 hax.1 hax.2, hry.2.2.2.2.2.2.2 hay.1 hay.2⟩

/-- C17, as amended. Bounded scroll output per tick: in every state reachable from
accumulators `(0, 0)`, for a report with 8-bit `x` and `y`, one call in drag-scroll mode adds
to `h` an amount in {-1, 0, 1} and to `v` an amount in {-2, ..., 2}, the sums reduced to the
8-bit field; `h` and `v` change by exactly these amounts whenever the sums are representable
in the 8-bit field. -/
theorem drag_scroll_bounded_output (b : Build) (hk : Hooks) (t : Tick) (s : State)
    (r : report_mouse_t) (hs : Reachable b hk s) (hds : s.is_drag_scroll = true)
    (hx : fits_int8 r.x) (hy : fits_int8 r.y) (hh : fits_int8 r.h) (hv : fits_int8 r.v) :
    (-1 ≤ drag_div_x s r ∧ drag_div_x s r ≤ 1) ∧
    (-2 ≤ drag_div_y s r ∧ drag_div_y s r ≤ 2) ∧
    (pointing_device_task_kb_body b hk t s r).2.h = wrap_int8 (r.h + drag_div_x s r) ∧
    (pointing_device_task_kb_body b hk t s r).2.v = wrap_int8 (r.v + drag_div_y s r) ∧
    (fits_int8 (r.h + drag_div_x s r) →
      (pointing_device_task_kb_body b hk t s r).2.h - r.h = drag_div_x s r) ∧
    (fits_int8 (r.v + drag_div_y s r) →
      (pointing_device_task_kb_body b hk t s r).2.v - r.v = drag_div_y s r) := by
  have hb := drag_div_bounds s r (reachable_acc_inv b hk s hs) hx hy
  have hh2 : (pointing_device_task_kb_body b hk t s r).2.h = wrap_int8 (r.h + drag_div_x s r) := by
    rw [body_drag b hk t s r hds, drag_scroll_eq]
    show (if drag_div_x s r ≠ 0 then wrap_int8 (r.h + drag_div_x s r) else r.h) = _
    split_ifs with h0
    · rfl
    · have h1 : drag_div_x s r = 0 := by simpa using h0
      rw [h1, Int.add_zero, wrap_int8_of_fits _ hh]
  have hv2 : (pointing_device_task_kb_body b hk t s r).2.v = wrap_int8 (r.v + drag_div_y s r) := by
    rw [body_drag b hk t s r hds, drag_scroll_eq]
    show (if drag_div_y s r ≠ 0 then wrap_int8 (r.v + drag_div_y s r) else r.v) = _
    split_ifs with h0
    · rfl
    · have h1 : drag_div_y s r = 0 := by simpa using h0
      rw [h1, Int.add_zero, wrap_int8_of_fits _ hv]
  refine ⟨hb.1, hb.2, hh2, hv2, fun hf => ?_, fun hf => ?_⟩
  · rw [hh2, wrap_int8_of_fits _ hf]
    omega
  · rw [hv2, wrap_int8_of_fits _ hf]
    omega

/-- C17 at the state reached from the start by a report with `x = 127, y = 90`: a report
with `x = 100, y = 127, h = 3, v = -4` comes out with `h = 4` and `v = -6`. -/
theorem drag_scroll_bounded_output_witness :
    (pointing_device_task_kb build_default hooks_default tick_default state_drag
      ⟨0, 127, 90, 0, 0⟩).1._dragscroll_accumulator_x = 127 ∧
    (pointing_device_task_kb build_default hooks_default tick_default state_drag
      ⟨0, 127, 90, 0, 0⟩).1._dragscroll_accumulator_y = -90 ∧
    (pointing_device_task_kb_body build_default hooks_default tick_default
      (pointing_device_task_kb build_default hooks_default tick_default state_drag
        ⟨0, 127, 90, 0, 0⟩).1 ⟨0, 100, 127, -4, 3⟩).2.h - 3 = 1 ∧
    (pointing_device_task_kb_body build_default hooks_default tick_default
      (pointing_device_task_kb build_default hooks_default tick_default state_drag
        ⟨0, 127, 90, 0, 0⟩).1 ⟨0, 100, 127, -4, 3⟩).2.v - -4 = -2 := by
  have h := drag_scroll_bounded_output build_default hooks_default tick_default
    (pointing_device_task_kb build_default hooks_default tick_default state_drag
      ⟨0, 127, 90, 0, 0⟩).1 ⟨0, 100, 127, -4, 3⟩
    (Reachable.task _ _ _ (Reachable.init _ rfl rfl)) rfl
    (by decide) (by decide) (by decide) (by decide)
  exact ⟨by decide, by decide, (h.2.2.2.2.1 (by decide)).trans (by decide),
    (h.2.2.2.2.2 (by decide)).trans (by decide)⟩

/-- C17 as stated fails at the ends of the 8-bit range: in the state reached from the start
by a report with `x = 127`, a report with `x = 127` and `h = 127` comes out with `h = -128`,
a change of -255; and in the state reached by a report with `y = 90`, a report with
`y = 127` and `v = -127` comes out with `v = 127`, a change of 254. -/
theorem drag_scroll_output_wraps :
    Reachable build_default hooks_default
      (pointing_device_task_kb build_default hooks_default tick_default state_drag
        ⟨0, 127, 0, 0, 0⟩).1 ∧
    (pointing_device_task_kb build_default hooks_default tick_default state_drag
        ⟨0, 127, 0, 0, 0⟩).1.is_drag_scroll = true ∧
    (pointing_device_task_kb_body build_default hooks_default tick_default
      (pointing_device_task_kb build_default hooks_default tick_default state_drag
        ⟨0, 127, 0, 0, 0⟩).1 ⟨0, 127, 0, 0, 127⟩).2.h = -128 ∧
    (pointing_device_task_kb_body build_default hooks_default tick_default
      (pointing_device_task_kb build_default hooks_default tick_default state_drag
        ⟨0, 127, 0, 0, 0⟩).1 ⟨0, 127, 0, 0, 127⟩).2.h - 127 = -255 ∧
    (pointing_device_task_kb_body build_default hooks_default tick_default
      (pointing_device_task_kb build_default hooks_default tick_default state_drag
        ⟨0, 0, 90, 0, 0⟩).1 ⟨0, 0, 127, -127, 0⟩).2.v - -127 = 254 :=
  ⟨Reachable.task _ _ _ (Reachable.init _ rfl rfl), by decide, by decide, by decide, by decide⟩

/-- C18. Frame of `process_record_kb`: for a keycode that is neither `DPI_CONFIG` nor
`DRAG_SCROLL`, or an event that `process_record_user` refuses (the result is then false),
the configuration and its dpi index, the persistent storage, `is_drag_scroll`, the values
given to the sensor and both accumulators are unchanged; the state after the call is the
state before with `lastMidClick` set to the timer and `is_scroll_clicked` set to the pressed
flag when the event is at column 1, row 0, and the state before otherwise. -/
theorem process_record_kb_frame (b : Build) (hk : Hooks) (now keycode : Nat)
    (record : keyrecord_t) (s : State)
    (h : (keycode ≠ b.DPI_CONFIG ∧ keycode ≠ b.DRAG_SCROLL) ∨
      hk.process_record_user keycode record = false) :
    (process_record_kb b hk now keycode record s).2 = hk.process_record_user keycode record ∧
    (process_record_kb b hk now keycode record s).1.keyboard_config = s.keyboard_config ∧
    (process_record_kb b hk now keycode record s).1.eeprom_kb = s.eeprom_kb ∧
    (process_record_kb b hk now keycode record s).1.eeprom_writes = s.eeprom_writes ∧
    (process_record_kb b hk now keycode record s).1.is_drag_scroll = s.is_drag_scroll ∧
    (process_record_kb b hk now keycode record s).1.cpi_calls = s.cpi_calls ∧
    (process_record_kb b hk now keycode record s).1._dragscroll_accumulator_x =
      s._dragscroll_accumulator_x ∧
    (process_record_kb b hk now keycode record s).1._dragscroll_accumulator_y =
      s._dragscroll_accumulator_y ∧
    (record.event.key.col = 1 ∧ record.event.key.row = 0 →
      (process_record_kb b hk now keycode record s).1 =
        { s with lastMidClick := now, is_scroll_clicked := record.event.pressed }) ∧
    (¬(record.event.key.col = 1 ∧ record.event.key.row = 0) →
      (process_record_kb b hk now keycode record s).1 = s) := by
  unfold process_record_kb
  rcases h with ⟨h1, h2⟩ | h
  · by_cases hpos : record.event.key.col = 1 ∧ record.event.key.row = 0 <;>
      cases hu : hk.process_record_user keycode record <;>
      simp [h1, h2, hpos, hu]
  · by_cases hpos : record.event.key.col = 1 ∧ record.event.key.row = 0 <;>
      simp [h, hpos]

/-- C18 at a press of key code 4 on the wheel button (column 1, row 0) at time 1234, and at
a `DRAG_SCROLL` press elsewhere that `process_record_user` refuses. -/
theorem process_record_kb_frame_witness :
    process_record_kb build_default hooks_default 1234 4 ⟨⟨⟨1, 0⟩, true⟩⟩ state_start =
      ({ state_start with lastMidClick := 1234, is_scroll_clicked := true }, true) ∧
    process_record_kb build_default
      ⟨fun _ _ => true, fun _ _ => false, fun r => r, fun _ _ => 0⟩ 1234
      build_default.DRAG_SCROLL ⟨⟨⟨0, 2⟩, true⟩⟩ state_start = (state_start, false) := by
  have h1 := process_record_kb_frame build_default hooks_default 1234 4 ⟨⟨⟨1, 0⟩, true⟩⟩
    state_start (Or.inl (by decide))
  have h2 := process_record_kb_frame build_default
    ⟨fun _ _ => true, fun _ _ => false, fun r => r, fun _ _ => 0⟩ 1234
    build_default.DRAG_SCROLL ⟨⟨⟨0, 2⟩, true⟩⟩ state_start (Or.inr rfl)
  exact ⟨Prod.ext (h1.2.2.2.2.2.2.2.2.1 (by decide)) h1.1,
    Prod.ext (h2.2.2.2.2.2.2.2.2.2 (by decide)) h2.1⟩

/-- C19. DPI cycling restores the index invariant: whatever the 8-bit index before (0 to
255), after a `DPI_CONFIG` press that `process_record_user` lets through the index is below
the table length 3, so the lookup `dpi_array[dpi_config]` that follows is inside the table
and the sensor is given an entry of the table. -/
theorem dpi_config_press_restores_index (b : Build) (hk : Hooks) (now : Nat)
    (record : keyrecord_t) (s : State) (hp : record.event.pressed = true)
    (huser : hk.process_record_user b.DPI_CONFIG record = true) :
    s.keyboard_config.dpi_config < 256 ∧
    DPI_OPTION_SIZE = 3 ∧
    (process_record_kb b hk now b.DPI_CONFIG record s).1.keyboard_config.dpi_config <
      DPI_OPTION_SIZE ∧
    (dpi_array[(process_record_kb b hk now b.DPI_CONFIG record
      s).1.keyboard_config.dpi_config]?).isSome = true ∧
    (b.DPI_CONFIG ≠ b.DRAG_SCROLL →
      ∃ d ∈ dpi_array,
        (process_record_kb b hk now b.DPI_CONFIG record s).1.cpi_calls =
          some d :: s.cpi_calls) := by
  have hlt : (s.keyboard_config.dpi_config + 1) % 3 < 3 := Nat.mod_lt _ (by decide)
  have hset := set_dpi_config_spec s.keyboard_config ((s.keyboard_config.dpi_config + 1) % 3)
    (by omega)
  have h256 : s.keyboard_config.dpi_config < 256 := Nat.mod_lt _ (by decide)
  have hidx : (process_record_kb b hk now b.DPI_CONFIG record s).1.keyboard_config.dpi_config =
      (s.keyboard_config.dpi_config + 1) % 3 := by
    unfold process_record_kb
    simp only [huser]
    by_cases hpos : record.event.key.col = 1 ∧ record.event.key.row = 0 <;>
      by_cases hkc : b.DPI_CONFIG = b.DRAG_SCROLL <;>
      cases hf : b.PLOOPY_DRAGSCROLL_FIXED <;>
      simp [hp, hpos, hkc, hf, eeconfig_update_kb, pointing_device_set_cpi,
        DPI_OPTION_SIZE, dpi_array, PLOOPY_DPI_OPTIONS, hset.1]
  have hsome : ∀ i, i < 3 → (dpi_array[i]?).isSome = true ∧
      ∃ d ∈ dpi_array, dpi_array[i]? = some d := by
    intro i hi
    interval_cases i <;> decide
  refine ⟨h256, rfl, ?_, ?_, ?_⟩
  · rw [hidx]
    exact hlt
  · rw [hidx]
    exact (hsome _ hlt).1
  · intro hkc
    obtain ⟨d, hd, hd2⟩ := (hsome _ hlt).2
    refine ⟨d, hd, ?_⟩
    rw [← hd2]
    unfold process_record_kb
    simp only [huser]
    by_cases hpos : record.event.key.col = 1 ∧ record.event.key.row = 0 <;>
      simp [hp, hpos, hkc, eeconfig_update_kb, pointing_device_set_cpi,
        DPI_OPTION_SIZE, dpi_array, PLOOPY_DPI_OPTIONS, hset.1]

/-- C19 at the indices 255 and 3: one press of `DPI_CONFIG` gives the index 1 in both cases
and the sensor is given 1600. -/
theorem dpi_config_press_restores_index_witness :
    ({ state_start with keyboard_config := ⟨255⟩ } : State).keyboard_config.dpi_config = 255 ∧
    (dpi_config_press build_default hooks_default 1000 ⟨0, 1⟩
      { state_start with keyboard_config := ⟨255⟩ }).keyboard_config.dpi_config < 3 ∧
    (dpi_config_press build_default hooks_default 1000 ⟨0, 1⟩
      { state_start with keyboard_config := ⟨255⟩ }).cpi_calls = [some 1600] ∧
    (dpi_config_press build_default hooks_default 1000 ⟨0, 1⟩
      { state_start with keyboard_config := ⟨3⟩ }).keyboard_config.dpi_config < 3 := by
  have h1 := dpi_config_press_restores_index build_default hooks_default 1000
    ⟨⟨⟨0, 1⟩, true⟩⟩ { state_start with keyboard_config := ⟨255⟩ } rfl rfl
  have h2 := dpi_config_press_restores_index build_default hooks_default 1000
    ⟨⟨⟨0, 1⟩, true⟩⟩ { state_start with keyboard_config := ⟨3⟩ } rfl rfl
  exact ⟨by decide, h1.2.2.1, by decide, h2.2.2.1⟩

end Ploopy
